import Mathlib

/-! # Shader source splitter and shader program builder

A shallow embedding of `ParseShader`, `CompileShader` and `CreateShader` of
`OpenGL_Rasterizer.cpp`, of the class `IndexBuffer` and of the resource handling of `main`,
and theorems about them.

* A `std::string` is a `List Char`; string literals of the source are written
  `"...".toList`.
* `std::string::find` returns the position of the first occurrence, or `npos`;
  here it returns `Option Nat`, `none` standing for `npos`.
* The file system is a function from paths to file contents; a path that cannot
  be opened is mapped to `none`.
* Indexing the two-element array `ss` outside `0..1` is undefined behaviour in
  the source; the embedding makes it an explicit fault.
-/

namespace Rasterizer

/-! ## Strings -/

/-- The value `std::string::npos` as a result of `find`. -/
def npos : Option Nat := none

/-- Search of `pat` in `s` from its first character on; `pos` is the position of the first
character of `s` in the string searched. -/
def findFrom (pat : List Char) : List Char → Nat → Option Nat
  | [], pos => if pat.isPrefixOf [] then some pos else none
  | c :: cs, pos => if pat.isPrefixOf (c :: cs) then some pos else findFrom pat cs (pos + 1)

/-- Embedding of `s.find(pat)`: position of the first occurrence of `pat` in `s`, or `npos`. -/
def find (s pat : List Char) : Option Nat := findFrom pat s 0

/-! ## Reading a stream line by line -/

/-- One call `getline(stream, line)` on a stream whose unread characters are the argument.
It fails (`none`) when no character is left; otherwise it extracts characters up to the
first newline, which is consumed and not stored, or up to the end of the stream, and
gives the line and the unread rest. -/
def getline : List Char → Option (List Char × List Char)
  | [] => none
  | c :: cs =>
    if c = '\n' then some ([], cs)
    else
      match getline cs with
      | none => some ([c], [])
      | some (l, rest) => some (c :: l, rest)

/-- The lines given by successive calls of `getline` until it fails. -/
def getlines : List Char → List (List Char)
  | [] => []
  | c :: cs =>
    if c = '\n' then [] :: getlines cs
    else
      match getlines cs with
      | [] => [[c]]
      | l :: ls => (c :: l) :: ls

/-! ## ParseShader -/

/-- The local `enum class ShaderType` of `ParseShader`. -/
inductive ShaderType where
  | NONE
  | VERTEX
  | FRAGMENT
  deriving DecidableEq, Repr

/-- The cast `(int)type`: `NONE = -1, VERTEX = 0, FRAGMENT = 1`. -/
def ShaderType.toInt : ShaderType → Int
  | ShaderType.NONE => -1
  | ShaderType.VERTEX => 0
  | ShaderType.FRAGMENT => 1

/-- Undefined behaviour made explicit: an access `ss[i]` outside the array. -/
inductive Fault where
  | outOfBounds (index : Int)
  deriving DecidableEq, Repr

deriving instance DecidableEq for Except

/-- The struct `ShaderProgramSource`. -/
structure ShaderProgramSource where
  VertexSource : List Char
  FragmentSource : List Char
  deriving DecidableEq, Repr

/-- The locals of `ParseShader` that the loop changes: `type` and the array `ss[2]`. -/
structure ParseState where
  type : ShaderType
  ss0 : List Char
  ss1 : List Char
  deriving DecidableEq, Repr

/-- State at loop entry: `type = ShaderType::NONE`, both string streams empty. -/
def ParseState.init : ParseState := ⟨ShaderType.NONE, [], []⟩

/-- The statement `ss[i] << text` on the two-element array. -/
def ssAppend (st : ParseState) (i : Int) (text : List Char) : Except Fault ParseState :=
  if i = 0 then Except.ok { st with ss0 := st.ss0 ++ text }
  else if i = 1 then Except.ok { st with ss1 := st.ss1 ++ text }
  else Except.error (Fault.outOfBounds i)

/-- The body of the `while` loop of `ParseShader` for one `line`. -/
def parseLine (st : ParseState) (line : List Char) : Except Fault ParseState :=
  if find line "#shader".toList ≠ npos then
    if find line "vertex".toList ≠ npos then
      Except.ok { st with type := ShaderType.VERTEX }
    else if find line "fragment".toList ≠ npos then
      Except.ok { st with type := ShaderType.FRAGMENT }
    else Except.ok st
  else
    ssAppend st st.type.toInt (line ++ ['\n'])

/-- The `while (getline(stream, line))` loop, over the lines `getline` gives. -/
def parseLoop (st : ParseState) : List (List Char) → Except Fault ParseState
  | [] => Except.ok st
  | line :: rest =>
    match parseLine st line with
    | Except.error e => Except.error e
    | Except.ok st1 => parseLoop st1 rest

/-- The lines `getline` gives on `std::ifstream stream(filepath)`: a stream that could not be
opened fails on the first `getline`. -/
def streamLines (stream : Option (List Char)) : List (List Char) :=
  match stream with
  | none => []
  | some content => getlines content

/-- `ParseShader` on an already constructed stream. -/
def ParseShaderStream (stream : Option (List Char)) : Except Fault ShaderProgramSource :=
  match parseLoop ParseState.init (streamLines stream) with
  | Except.error e => Except.error e
  | Except.ok st => Except.ok ⟨st.ss0, st.ss1⟩

/-- Embedding of `ParseShader(filepath)`; `fs` is the file system. -/
def ParseShader (fs : String → Option (List Char)) (filepath : String) :
    Except Fault ShaderProgramSource :=
  ParseShaderStream (fs filepath)

/-! ## The graphics driver

The driver is outside the repository. It is a parameter of the embedding: `Driver` gives the
answers the builder reads from it, and `GLState` records what the builder has done, namely
the driver calls in order and the text written to `std::cout`. -/

/-- The constant `GL_VERTEX_SHADER` of the OpenGL headers. -/
def GL_VERTEX_SHADER : Nat := 0x8B31

/-- The constant `GL_FRAGMENT_SHADER` of the OpenGL headers. -/
def GL_FRAGMENT_SHADER : Nat := 0x8B30

/-- The constant `GL_COMPILE_STATUS` of the OpenGL headers. -/
def GL_COMPILE_STATUS : Nat := 0x8B81

/-- The constant `GL_INFO_LOG_LENGTH` of the OpenGL headers. -/
def GL_INFO_LOG_LENGTH : Nat := 0x8B84

/-- The constant `GL_FALSE` of the OpenGL headers. -/
def GL_FALSE : Int := 0

/-- The constant `GL_TRUE` of the OpenGL headers. -/
def GL_TRUE : Int := 1

/-- A call of a driver entry point, with its arguments and, where the builder reads it, the
value the driver gave back. -/
inductive GLCall where
  | glCreateProgram (ret : Nat)
  | glCreateShader (type : Nat) (ret : Nat)
  | glShaderSource (id : Nat) (src : List Char)
  | glCompileShader (id : Nat)
  | glGetShaderiv (id : Nat) (pname : Nat) (ret : Int)
  | glGetShaderInfoLog (id : Nat) (bufSize : Int)
  | glDeleteShader (id : Nat)
  | glAttachShader (program : Nat) (shader : Nat)
  | glLinkProgram (program : Nat)
  | glValidateProgram (program : Nat)
  deriving DecidableEq, Repr

/-- The answers of the driver. `name n` is the object name it gives to the object created
after `n` earlier creations, 0 when the creation fails; `status type source` is the compile
status it reports for a stage of kind `type` with text `source`, and `infoLog type source`
its diagnostic log, empty when the stage has no information log. The last field is not an
answer of the driver: `unwritten n` is the text found in a buffer that the driver was given
and did not write to, after `n` creations. -/
structure Driver where
  name : Nat → Nat
  status : Nat → List Char → Int
  infoLog : Nat → List Char → List Char
  unwritten : Nat → List Char

/-- What the builder has done so far: `created` objects asked of the driver, the driver
`calls` in order, and the text written to `std::cout`. -/
structure GLState where
  created : Nat
  calls : List GLCall
  cout : List Char
  deriving DecidableEq, Repr

/-- Record one driver call. -/
def GLState.call (gl : GLState) (c : GLCall) : GLState :=
  { gl with calls := gl.calls ++ [c] }

/-- The statement `std::cout << text`. -/
def GLState.print (gl : GLState) (text : List Char) : GLState :=
  { gl with cout := gl.cout ++ text }

/-- The manipulator `std::endl` written to `std::cout`. -/
def endl : List Char := ['\n']

/-- The call `glCreateProgram()`. -/
def glCreateProgram (d : Driver) (gl : GLState) : Nat × GLState :=
  (d.name gl.created,
    { gl with created := gl.created + 1,
              calls := gl.calls ++ [GLCall.glCreateProgram (d.name gl.created)] })

/-- The call `glCreateShader(type)`. -/
def glCreateShader (d : Driver) (gl : GLState) (type : Nat) : Nat × GLState :=
  (d.name gl.created,
    { gl with created := gl.created + 1,
              calls := gl.calls ++ [GLCall.glCreateShader type (d.name gl.created)] })

/-! ## CompileShader and CreateShader -/

/-- The value of `GL_INFO_LOG_LENGTH`: the number of characters of the information log
with its terminator, and 0 when the stage has no information log. -/
def infoLogLength (log : List Char) : Int :=
  if log = [] then 0 else log.length + 1

/-- The text that `std::cout << message` prints once `glGetShaderInfoLog(id, length, ..)` has
returned: the log, which fills a buffer of `length` characters; with no information log
`length` is 0, the driver writes nothing and the text is what the buffer happens to hold. -/
def messageText (d : Driver) (type : Nat) (source : List Char) (n : Nat) : List Char :=
  if infoLogLength (d.infoLog type source) = 0 then d.unwritten n else d.infoLog type source

/-- Embedding of `CompileShader(type, source)`. -/
def CompileShader (d : Driver) (gl : GLState) (type : Nat) (source : List Char) :
    Nat × GLState :=
  let (id, gl) := glCreateShader d gl type
  let gl := gl.call (GLCall.glShaderSource id source)
  let gl := gl.call (GLCall.glCompileShader id)
  let result : Int := d.status type source
  let gl := gl.call (GLCall.glGetShaderiv id GL_COMPILE_STATUS result)
  if result = GL_FALSE then
    let length : Int := infoLogLength (d.infoLog type source)
    let gl := gl.call (GLCall.glGetShaderiv id GL_INFO_LOG_LENGTH length)
    let gl := gl.call (GLCall.glGetShaderInfoLog id length)
    let message := messageText d type source gl.created
    let gl := gl.print ("Failed to compile ".toList
      ++ (if type = GL_VERTEX_SHADER then "vertex".toList else "fragment".toList)
      ++ " shader".toList ++ endl)
    let gl := gl.print (message ++ endl)
    let gl := gl.call (GLCall.glDeleteShader id)
    (0, gl)
  else
    (id, gl)

/-- Embedding of `CreateShader(vertexShader, fragmentShader)`. -/
def CreateShader (d : Driver) (gl : GLState) (vertexShader fragmentShader : List Char) :
    Nat × GLState :=
  let (program, gl) := glCreateProgram d gl
  let (vShader, gl) := CompileShader d gl GL_VERTEX_SHADER vertexShader
  let (fShader, gl) := CompileShader d gl GL_FRAGMENT_SHADER fragmentShader
  let gl := gl.call (GLCall.glAttachShader program vShader)
  let gl := gl.call (GLCall.glAttachShader program fShader)
  let gl := gl.call (GLCall.glLinkProgram program)
  let gl := gl.call (GLCall.glValidateProgram program)
  let gl := gl.call (GLCall.glDeleteShader vShader)
  let gl := gl.call (GLCall.glDeleteShader fShader)
  (program, gl)

/-- The driver calls made from the state `before` on, up to the state `after`. -/
def callsSince (before after : GLState) : List GLCall :=
  after.calls.drop before.calls.length

/-- How many calls of `glCreateShader` in `calls` gave back the handle `h`. -/
def createdCount (h : Nat) (calls : List GLCall) : Nat :=
  (calls.filter (fun c => match c with
    | GLCall.glCreateShader _ ret => decide (ret = h)
    | _ => false)).length

/-- How many calls of `glDeleteShader` in `calls` were passed the handle `h`. -/
def deletedCount (h : Nat) (calls : List GLCall) : Nat :=
  calls.count (GLCall.glDeleteShader h)

/-- The handle `CompileShader` returns for a stage that `glCreateShader` named `id`. -/
def stageHandle (d : Driver) (type : Nat) (source : List Char) (id : Nat) : Nat :=
  if d.status type source = GL_FALSE then 0 else id

/-- The driver calls of one run of `CompileShader` for a stage that `glCreateShader` named
`id`. -/
def stageCalls (d : Driver) (type : Nat) (source : List Char) (id : Nat) : List GLCall :=
  if d.status type source = GL_FALSE then
    [GLCall.glCreateShader type id, GLCall.glShaderSource id source, GLCall.glCompileShader id,
      GLCall.glGetShaderiv id GL_COMPILE_STATUS GL_FALSE,
      GLCall.glGetShaderiv id GL_INFO_LOG_LENGTH (infoLogLength (d.infoLog type source)),
      GLCall.glGetShaderInfoLog id (infoLogLength (d.infoLog type source)),
      GLCall.glDeleteShader id]
  else
    [GLCall.glCreateShader type id, GLCall.glShaderSource id source, GLCall.glCompileShader id,
      GLCall.glGetShaderiv id GL_COMPILE_STATUS (d.status type source)]

/-- A driver for examples: it names objects 1, 2, 3, ..., and rejects exactly the stages
whose text is empty, with the log `syntax error`. -/
def sampleDriver : Driver where
  name := fun n => n + 1
  status := fun _ source => if source = [] then GL_FALSE else GL_TRUE
  infoLog := fun _ source => if source = [] then "syntax error".toList else []
  unwritten := fun _ => []

/-- A driver for examples whose creations fail: every name it gives is 0; it reports every
stage as compiled. -/
def failingCreateDriver : Driver where
  name := fun _ => 0
  status := fun _ _ => GL_TRUE
  infoLog := fun _ _ => []
  unwritten := fun _ => []

/-- A driver for examples that rejects every stage and has no information log for it; the
buffers it leaves unwritten hold the text `??`. -/
def silentDriver : Driver where
  name := fun n => n + 1
  status := fun _ _ => GL_FALSE
  infoLog := fun _ _ => []
  unwritten := fun _ => "??".toList

/-- A state with nothing done yet. -/
def GLState.start : GLState := ⟨0, [], []⟩

/-! ## The splitter as the specification words it -/

/-- The line contains the marker token `#shader`. -/
def containsShader (line : List Char) : Prop := "#shader".toList <:+: line

instance containsShaderDecidable : DecidablePred containsShader :=
  fun line => inferInstanceAs (Decidable ("#shader".toList <:+: line))

/-- The stage a stage-selecting marker line selects: a line containing `#shader` and
`vertex` selects the vertex stage, a line containing `#shader` and `fragment` (and no
`vertex`) selects the fragment stage; any other line selects nothing. -/
def selectedStage (line : List Char) : Option ShaderType :=
  if containsShader line then
    if "vertex".toList <:+: line then some ShaderType.VERTEX
    else if "fragment".toList <:+: line then some ShaderType.FRAGMENT
    else none
  else none

/-- The stage selected by the most recent stage-selecting marker among the lines `pre`,
if there is one. -/
def lastSelected (pre : List (List Char)) : Option ShaderType :=
  pre.reverse.findSome? selectedStage

/-- A stage-selecting marker line precedes every line that does not contain `#shader`. -/
def markerPrecedesContent (doc : List (List Char)) : Prop :=
  ∀ i, i < doc.length → ¬ containsShader (doc.getD i []) →
    (lastSelected (doc.take i)).isSome = true

instance markerPrecedesContentDecidable : DecidablePred markerPrecedesContent :=
  fun doc => inferInstanceAs (Decidable (∀ i, i < doc.length →
    ¬ containsShader (doc.getD i []) → (lastSelected (doc.take i)).isSome = true))

/-- The concatenation, in document order, of `line ++ "\n"` for every line of `doc` that does
not contain `#shader` and whose most recent preceding stage-selecting marker selected
`stage`. -/
def sectionText (stage : ShaderType) (doc : List (List Char)) : List Char :=
  ((List.range doc.length).filter (fun i =>
      decide (¬ containsShader (doc.getD i [])) &&
        decide (lastSelected (doc.take i) = some stage))).flatMap
    (fun i => doc.getD i [] ++ ['\n'])

/-- The text made of the given lines, each followed by a newline. -/
def joinLines (ls : List (List Char)) : List Char :=
  ls.flatMap (fun l => l ++ ['\n'])

/-- The number of lines of a text: how many lines `getline` reads from it. -/
def lineCount (text : List Char) : Nat := (getlines text).length

/-- The number of content lines of a document: its lines that are not marker lines (lines
containing `#shader` and `vertex` or `fragment`). -/
def contentLineCount (doc : List (List Char)) : Nat :=
  (doc.filter (fun l => (selectedStage l).isNone)).length

/-- The document made of the marker line `#shader vertex`, the text `V`, the marker line
`#shader fragment` and the text `F`. -/
def recombine (V F : List Char) : List Char :=
  "#shader vertex\n".toList ++ V ++ "#shader fragment\n".toList ++ F

/-- In `line`, an occurrence of `a` is followed later in the line by `b`: `a` occurs at some
position `i` and `b` occurs in what comes after that occurrence. -/
def followedBy (line a b : List Char) : Prop :=
  ∃ i, i < line.length + 1 ∧ a <+: line.drop i ∧ b <:+: line.drop (i + a.length)

instance followedByDecidable (line a b : List Char) : Decidable (followedBy line a b) :=
  inferInstanceAs (Decidable (∃ i, i < line.length + 1 ∧ a <+: line.drop i ∧
    b <:+: line.drop (i + a.length)))

/-! ## Link and validation status -/

/-- A driver together with what it would report about the program once linked and
validated: `linkStatus v f` and `validateStatus v f` are the values of `GL_LINK_STATUS` and
`GL_VALIDATE_STATUS` for the program built from the stage texts `v` and `f`. `CreateShader`
calls `glLinkProgram` and `glValidateProgram` and asks for neither value, so it runs on the
`Driver` part alone. -/
structure ProgramDriver extends Driver where
  linkStatus : List Char → List Char → Int
  validateStatus : List Char → List Char → Int

/-- The example driver, reporting that every program links and validates. -/
def linkingDriver : ProgramDriver where
  toDriver := sampleDriver
  linkStatus := fun _ _ => GL_TRUE
  validateStatus := fun _ _ => GL_TRUE

/-- The example driver, reporting a link failure for every program. -/
def linkFailingDriver : ProgramDriver where
  toDriver := sampleDriver
  linkStatus := fun _ _ => GL_FALSE
  validateStatus := fun _ _ => GL_TRUE

/-! ## Buffer objects and IndexBuffer

The part of the driver that holds buffer objects: the buffer names in use, the buffer bound
to the vertex slot (`GL_ARRAY_BUFFER`) and to the index slot (`GL_ELEMENT_ARRAY_BUFFER`),
0 standing for none, and the buffer calls made so far. -/

/-- The constant `GL_ARRAY_BUFFER` of the OpenGL headers. -/
def GL_ARRAY_BUFFER : Nat := 0x8892

/-- The constant `GL_ELEMENT_ARRAY_BUFFER` of the OpenGL headers. -/
def GL_ELEMENT_ARRAY_BUFFER : Nat := 0x8893

/-- The constant `GL_STATIC_DRAW` of the OpenGL headers. -/
def GL_STATIC_DRAW : Nat := 0x88E4

/-- A call of a buffer entry point of the driver. -/
inductive BufferCall where
  | glGenBuffers (ret : Nat)
  | glBindBuffer (target : Nat) (buffer : Nat)
  | glBufferData (target : Nat) (size : Nat) (data : List Nat) (usage : Nat)
  | glDeleteBuffers (buffer : Nat)
  deriving DecidableEq, Repr

/-- The buffer names in use, the two binding slots and the buffer calls so far. -/
structure BufferState where
  live : List Nat
  arrayBuffer : Nat
  elementArrayBuffer : Nat
  calls : List BufferCall
  deriving DecidableEq, Repr

/-- The call `glGenBuffers(1, &id)`: the driver picks the name `gen live`, which becomes a
name in use. -/
def glGenBuffers (gen : List Nat → Nat) (s : BufferState) : Nat × BufferState :=
  (gen s.live,
    { s with live := gen s.live :: s.live,
             calls := s.calls ++ [BufferCall.glGenBuffers (gen s.live)] })

/-- The call `glBindBuffer(target, buffer)`: it sets the slot that `target` names. -/
def glBindBuffer (s : BufferState) (target buffer : Nat) : BufferState :=
  let s := { s with calls := s.calls ++ [BufferCall.glBindBuffer target buffer] }
  if target = GL_ARRAY_BUFFER then { s with arrayBuffer := buffer }
  else if target = GL_ELEMENT_ARRAY_BUFFER then { s with elementArrayBuffer := buffer }
  else s

/-- The call `glBufferData(target, size, data, usage)`: the bytes are copied to the store of
the buffer bound to `target`; names and bindings stay as they are. -/
def glBufferData (s : BufferState) (target size : Nat) (data : List Nat) (usage : Nat) :
    BufferState :=
  { s with calls := s.calls ++ [BufferCall.glBufferData target size data usage] }

/-- The call `glDeleteBuffers(1, &id)`: the name is no longer in use and a slot bound to it
reverts to none; the name 0 is ignored. -/
def glDeleteBuffers (s : BufferState) (buffer : Nat) : BufferState :=
  let s := { s with calls := s.calls ++ [BufferCall.glDeleteBuffers buffer] }
  if buffer = 0 then s
  else
    { s with live := s.live.filter (fun b => decide (b ≠ buffer)),
             arrayBuffer := if s.arrayBuffer = buffer then 0 else s.arrayBuffer,
             elementArrayBuffer :=
               if s.elementArrayBuffer = buffer then 0 else s.elementArrayBuffer }

/-- The class `IndexBuffer`: its only member is `renderer_id`. -/
structure IndexBuffer where
  renderer_id : Nat
  deriving DecidableEq, Repr

/-- The constructor `IndexBuffer::IndexBuffer(data, numbOfElements)`; the size in bytes is
`numbOfElements * sizeof(unsigned int)`, computed in `size_t`. -/
def IndexBuffer.construct (gen : List Nat → Nat) (s : BufferState) (data : List Nat)
    (numbOfElements : Nat) : IndexBuffer × BufferState :=
  let (renderer_id, s) := glGenBuffers gen s
  let s := glBindBuffer s GL_ELEMENT_ARRAY_BUFFER renderer_id
  let s := glBufferData s GL_ELEMENT_ARRAY_BUFFER ((numbOfElements * 4) % 2 ^ 64) data
    GL_STATIC_DRAW
  (⟨renderer_id⟩, s)

/-- The destructor `IndexBuffer::~IndexBuffer()`. -/
def IndexBuffer.destruct (ib : IndexBuffer) (s : BufferState) : BufferState :=
  glDeleteBuffers s ib.renderer_id

/-- The method `IndexBuffer::Bind()`. -/
def IndexBuffer.Bind (ib : IndexBuffer) (s : BufferState) : BufferState :=
  glBindBuffer s GL_ARRAY_BUFFER ib.renderer_id

/-- The method `IndexBuffer::Unbind()`. -/
def IndexBuffer.Unbind (_ib : IndexBuffer) (s : BufferState) : BufferState :=
  glBindBuffer s GL_ARRAY_BUFFER 0

/-- The buffer calls made from the state `before` on, up to the state `after`. -/
def bufferCallsSince (before after : BufferState) : List BufferCall :=
  after.calls.drop before.calls.length

/-- A driver choice of names for examples: one more than the largest name in use. -/
def nextBufferName (live : List Nat) : Nat := live.foldr max 0 + 1

/-! ## The GPU resources of main

The statements of `main` on its normal exit path that acquire or release a GPU resource,
in the order in which they run, with the frame loop between them. -/

/-- The kinds of GPU resource `main` holds. -/
inductive ResourceKind where
  | program
  | vertexArray
  | buffer
  | texture
  deriving DecidableEq, Repr

/-- What `main` does to its resources and to the graphics context. -/
inductive MainEvent where
  | acquire (kind : ResourceKind) (id : Nat)
  | release (kind : ResourceKind) (id : Nat)
  | frame
  | glfwTerminate
  deriving DecidableEq, Repr

/-- The handles the driver gives to `main`, under the names of the variables of `main`
that hold them. -/
structure MainHandles where
  shader : Nat
  lightShader : Nat
  VAO0 : Nat
  VAO1 : Nat
  VAO2 : Nat
  vbo0 : Nat
  vbo1 : Nat
  vbo2 : Nat
  texture1 : Nat
  texture1Specular : Nat
  texture2 : Nat
  texture2Specular : Nat

/-- Modelled from the spec: `VertexBuffer.cpp` is not among the sources, only the class
declaration `VertexBuffer.h`. The constructor of the vertex-data buffer wrapper allocates a
GPU buffer, of handle `id`. -/
def VertexBuffer.construct (id : Nat) : List MainEvent :=
  [MainEvent.acquire ResourceKind.buffer id]

/-- Modelled from the spec: `VertexBuffer.cpp` is not among the sources. The destruction of
the vertex-data buffer wrapper releases its GPU handle. -/
def VertexBuffer.destruct (id : Nat) : List MainEvent :=
  [MainEvent.release ResourceKind.buffer id]

/-- The function `handleTextures(texture, location)`: `glGenTextures` gives the texture
handle; the rest binds it, sets its parameters and uploads the image. -/
def handleTextures (texture : Nat) : List MainEvent :=
  [MainEvent.acquire ResourceKind.texture texture]

/-- The resource events of `main` when the window and the loader initialise and the frame
loop runs `frames` times before the close request. `CreateShader` gives a program handle
(from `glCreateProgram`); the three `VertexBuffer` locals are destroyed when `main`
returns, after the call of `glfwTerminate`, the last constructed first. -/
def mainEvents (h : MainHandles) (frames : Nat) : List MainEvent :=
  [MainEvent.acquire ResourceKind.program h.shader,
    MainEvent.acquire ResourceKind.program h.lightShader]
  ++ [MainEvent.acquire ResourceKind.vertexArray h.VAO0] ++ VertexBuffer.construct h.vbo0
  ++ [MainEvent.acquire ResourceKind.vertexArray h.VAO1] ++ VertexBuffer.construct h.vbo1
  ++ [MainEvent.acquire ResourceKind.vertexArray h.VAO2] ++ VertexBuffer.construct h.vbo2
  ++ handleTextures h.texture1 ++ handleTextures h.texture1Specular
  ++ handleTextures h.texture2 ++ handleTextures h.texture2Specular
  ++ List.replicate frames MainEvent.frame
  ++ [MainEvent.release ResourceKind.vertexArray h.VAO0,
      MainEvent.release ResourceKind.vertexArray h.VAO1,
      MainEvent.release ResourceKind.vertexArray h.VAO2]
  ++ [MainEvent.glfwTerminate]
  ++ VertexBuffer.destruct h.vbo2 ++ VertexBuffer.destruct h.vbo1
  ++ VertexBuffer.destruct h.vbo0

/-- The resources acquired in a run, in order. -/
def acquisitions (events : List MainEvent) : List (ResourceKind × Nat) :=
  events.filterMap (fun e => match e with
    | MainEvent.acquire kind id => some (kind, id)
    | _ => none)

/-- The resources released in a run, in order. -/
def releases (events : List MainEvent) : List (ResourceKind × Nat) :=
  events.filterMap (fun e => match e with
    | MainEvent.release kind id => some (kind, id)
    | _ => none)

/-- The part of a run that comes before `glfwTerminate`. -/
def beforeTerminate (events : List MainEvent) : List MainEvent :=
  events.takeWhile (fun e => decide (e ≠ MainEvent.glfwTerminate))

/-- Handles for examples: each kind of object numbered from 1. -/
def sampleHandles : MainHandles where
  shader := 1
  lightShader := 2
  VAO0 := 1
  VAO1 := 2
  VAO2 := 3
  vbo0 := 1
  vbo1 := 2
  vbo2 := 3
  texture1 := 1
  texture1Specular := 2
  texture2 := 3
  texture2Specular := 4

/-! ## Facts about `find` and `getline` -/

theorem findFrom_isSome_iff (pat s : List Char) (pos : Nat) :
    (findFrom pat s pos).isSome = true ↔ pat <:+: s := by
  induction s generalizing pos with
  | nil =>
    by_cases h : pat = []
    · subst h; simp [findFrom]
    · cases pat with
      | nil => exact absurd rfl h
      | cons a as => simp [findFrom, List.isPrefixOf]
  | cons c cs ih =>
    unfold findFrom
    by_cases h : pat.isPrefixOf (c :: cs) = true
    · rw [if_pos h]
      simp only [Option.isSome_some, true_iff]
      exact (List.isPrefixOf_iff_prefix.mp h).isInfix
    · rw [if_neg h, ih, List.infix_cons_iff]
      constructor
      · intro h2; exact Or.inr h2
      · rintro (h2 | h2)
        · exact absurd (List.isPrefixOf_iff_prefix.mpr h2) h
        · exact h2

/-- The test `s.find(pat) != npos` holds exactly when `pat` occurs in `s`. -/
theorem find_ne_npos_iff (s pat : List Char) : find s pat ≠ npos ↔ pat <:+: s := by
  rw [← findFrom_isSome_iff pat s 0, find, npos]
  cases findFrom pat s 0 <;> simp

/-- The list `getlines` is what iterating `getline` until it fails gives. -/
theorem getlines_eq_getline (s : List Char) :
    getlines s = match getline s with
      | none => []
      | some (l, rest) => l :: getlines rest := by
  induction s with
  | nil => simp [getlines, getline]
  | cons c cs ih =>
    by_cases h : c = '\n'
    · simp [getlines, getline, h]
    · simp only [getlines, getline, h, if_false]
      rw [ih]
      cases hg : getline cs with
      | none => simp [getlines]
      | some p => cases p; simp

theorem getlines_line_append (l rest : List Char) (h : '\n' ∉ l) :
    getlines (l ++ '\n' :: rest) = l :: getlines rest := by
  induction l with
  | nil => simp [getlines]
  | cons c cs ih =>
    have hc : c ≠ '\n' := fun e => h (by simp [e])
    have hcs : '\n' ∉ cs := fun e => h (by simp [e])
    simp [getlines, hc, ih hcs]

theorem newline_not_mem_of_mem_getlines (s l : List Char) (h : l ∈ getlines s) : '\n' ∉ l := by
  induction s generalizing l with
  | nil => simp [getlines] at h
  | cons c cs ih =>
    by_cases hc : c = '\n'
    · simp only [getlines, hc, if_true, List.mem_cons] at h
      rcases h with h | h
      · subst h; simp
      · exact ih l h
    · simp only [getlines, hc, if_false] at h
      cases hg : getlines cs with
      | nil =>
        rw [hg] at h
        simp only [List.mem_singleton] at h
        subst h
        simpa using Ne.symm hc
      | cons l1 ls =>
        rw [hg] at h
        simp only [List.mem_cons] at h
        rcases h with h | h
        · subst h
          have := ih l1 (by rw [hg]; simp)
          simp only [List.mem_cons, not_or]
          exact ⟨Ne.symm hc, this⟩
        · exact ih l (by rw [hg]; simp [h])

theorem parseLoop_append (st : ParseState) (a b : List (List Char)) :
    parseLoop st (a ++ b) = match parseLoop st a with
      | Except.error e => Except.error e
      | Except.ok st1 => parseLoop st1 b := by
  induction a generalizing st with
  | nil => simp [parseLoop]
  | cons l ls ih =>
    simp only [List.cons_append, parseLoop]
    cases parseLine st l with
    | error e => simp
    | ok st1 => simpa using ih st1

/-! ## The loop computes the sections -/

theorem lastSelected_snoc (pre : List (List Char)) (l : List Char) :
    lastSelected (pre ++ [l]) = match selectedStage l with
      | some t => some t
      | none => lastSelected pre := by
  simp only [lastSelected, List.reverse_append, List.reverse_cons, List.reverse_nil,
    List.nil_append, List.singleton_append, List.findSome?_cons]
  cases selectedStage l <;> rfl

theorem sectionText_snoc (stage : ShaderType) (pre : List (List Char)) (l : List Char) :
    sectionText stage (pre ++ [l]) = sectionText stage pre ++
      (if ¬ containsShader l ∧ lastSelected pre = some stage then l ++ ['\n'] else []) := by
  have hfil : (List.range pre.length).filter (fun i =>
        decide (¬ containsShader ((pre ++ [l]).getD i [])) &&
          decide (lastSelected ((pre ++ [l]).take i) = some stage))
      = (List.range pre.length).filter (fun i =>
        decide (¬ containsShader (pre.getD i [])) &&
          decide (lastSelected (pre.take i) = some stage)) := by
    apply List.filter_congr
    intro i hi
    have hi2 : i < pre.length := List.mem_range.mp hi
    rw [List.getD_append _ _ _ _ hi2, List.take_append_of_le_length (Nat.le_of_lt hi2)]
  have hbind : ∀ (is : List Nat), (∀ i ∈ is, i < pre.length) →
      is.flatMap (fun i => (pre ++ [l]).getD i [] ++ ['\n'])
        = is.flatMap (fun i => pre.getD i [] ++ ['\n']) := by
    intro is
    induction is with
    | nil => intro _; rfl
    | cons a as ih =>
      intro h
      simp only [List.flatMap_cons]
      rw [ih (fun i hi => h i (List.mem_cons_of_mem _ hi)),
        List.getD_append _ _ _ _ (h a (List.mem_cons_self _ _))]
  unfold sectionText
  rw [List.length_append, List.length_singleton, List.range_succ, List.filter_append,
    List.flatMap_append, hfil, hbind _ (fun i hi => List.mem_range.mp (List.mem_of_mem_filter hi))]
  congr 1
  have hget : (pre ++ [l]).getD pre.length [] = l := by
    rw [List.getD_append_right _ _ _ _ (Nat.le_refl _)]; simp
  have htake : (pre ++ [l]).take pre.length = pre := by simp
  by_cases h1 : containsShader l
  · simp [List.filter, hget, htake, h1]
  · by_cases h2 : lastSelected pre = some stage
    · simp [List.filter, hget, htake, h1, h2]
    · simp [List.filter, hget, htake, h1, h2]

theorem parseLine_of_containsShader (st : ParseState) (l : List Char) (h : containsShader l) :
    parseLine st l = Except.ok { st with type := (selectedStage l).getD st.type } := by
  have h1 : find l "#shader".toList ≠ npos := (find_ne_npos_iff _ _).mpr h
  unfold parseLine selectedStage
  rw [if_pos h1, if_pos h]
  by_cases hv : "vertex".toList <:+: l
  · rw [if_pos ((find_ne_npos_iff _ _).mpr hv), if_pos hv]; rfl
  · rw [if_neg (fun e => hv ((find_ne_npos_iff _ _).mp e)), if_neg hv]
    by_cases hf : "fragment".toList <:+: l
    · rw [if_pos ((find_ne_npos_iff _ _).mpr hf), if_pos hf]; rfl
    · rw [if_neg (fun e => hf ((find_ne_npos_iff _ _).mp e)), if_neg hf]; rfl

theorem parseLine_of_not_containsShader (st : ParseState) (l : List Char)
    (h : ¬ containsShader l) :
    parseLine st l = ssAppend st st.type.toInt (l ++ ['\n']) := by
  unfold parseLine
  rw [if_neg (fun e => h ((find_ne_npos_iff _ _).mp (by simpa using e)))]

theorem selectedStage_ne_NONE (l : List Char) : selectedStage l ≠ some ShaderType.NONE := by
  unfold selectedStage
  split_ifs <;> simp

theorem lastSelected_ne_NONE (pre : List (List Char)) :
    lastSelected pre ≠ some ShaderType.NONE := by
  unfold lastSelected
  generalize pre.reverse = xs
  induction xs with
  | nil => simp
  | cons x xs ih =>
    rw [List.findSome?_cons]
    cases hx : selectedStage x with
    | none => simpa using ih
    | some t =>
      intro e
      exact selectedStage_ne_NONE x (by rw [hx]; simpa using e)

theorem markerPrecedesContent_snoc (pre : List (List Char)) (l : List Char)
    (h : markerPrecedesContent (pre ++ [l])) :
    markerPrecedesContent pre ∧
      (¬ containsShader l → (lastSelected pre).isSome = true) := by
  constructor
  · intro i hi hc
    have h2 := h i (by simp; omega)
    rw [List.getD_append _ _ _ _ hi, List.take_append_of_le_length (Nat.le_of_lt hi)] at h2
    exact h2 hc
  · intro hc
    have h2 := h pre.length (by simp)
    rw [List.getD_append_right _ _ _ _ (Nat.le_refl _)] at h2
    simpa using h2 (by simpa using hc)

/-- The state of the loop after the lines `doc`, when a marker precedes all content. -/
theorem parseLoop_sections (doc : List (List Char)) (h : markerPrecedesContent doc) :
    parseLoop ParseState.init doc = Except.ok
      ⟨(lastSelected doc).getD ShaderType.NONE, sectionText ShaderType.VERTEX doc,
        sectionText ShaderType.FRAGMENT doc⟩ := by
  induction doc using List.reverseRecOn with
  | nil => rfl
  | append_singleton pre l ih =>
    obtain ⟨hpre, hl⟩ := markerPrecedesContent_snoc pre l h
    rw [parseLoop_append, ih hpre]
    simp only [parseLoop, sectionText_snoc, lastSelected_snoc]
    by_cases hc : containsShader l
    · rw [parseLine_of_containsShader _ _ hc]
      cases hs : selectedStage l <;> simp [hc]
    · rw [parseLine_of_not_containsShader _ _ hc]
      have hnone : selectedStage l = none := by simp [selectedStage, hc]
      have hsome := hl hc
      have hne := lastSelected_ne_NONE pre
      rw [hnone]
      cases hp : lastSelected pre with
      | none => rw [hp] at hsome; simp at hsome
      | some t =>
        cases t with
        | NONE => exact absurd hp hne
        | VERTEX => simp [ssAppend, ShaderType.toInt, hc]
        | FRAGMENT => simp [ssAppend, ShaderType.toInt, hc]

/-! ## Shape of the two accumulated texts -/

theorem joinLines_cons (l : List Char) (ls : List (List Char)) :
    joinLines (l :: ls) = l ++ '\n' :: joinLines ls := by
  simp [joinLines, List.flatMap_cons]

theorem joinLines_append (as bs : List (List Char)) :
    joinLines (as ++ bs) = joinLines as ++ joinLines bs := by
  simp [joinLines, List.flatMap_append]

theorem getlines_joinLines (ls : List (List Char)) (rest : List Char)
    (h : ∀ l ∈ ls, '\n' ∉ l) :
    getlines (joinLines ls ++ rest) = ls ++ getlines rest := by
  induction ls with
  | nil => simp [joinLines]
  | cons l ls ih =>
    rw [joinLines_cons, List.append_assoc, List.cons_append,
      getlines_line_append _ _ (h l (List.mem_cons_self _ _)),
      ih (fun x hx => h x (List.mem_cons_of_mem _ hx))]
    rfl

theorem lineCount_joinLines (ls : List (List Char)) (h : ∀ l ∈ ls, '\n' ∉ l) :
    lineCount (joinLines ls) = ls.length := by
  have := getlines_joinLines ls [] h
  simp only [List.append_nil] at this
  simp [lineCount, this, getlines]

/-- What a run of the loop that ends without fault has added to the two string streams:
the lines not containing `#shader`, split between the two. -/
theorem parseLoop_inv (st : ParseState) (doc : List (List Char)) (st2 : ParseState)
    (h : parseLoop st doc = Except.ok st2) :
    ∃ lsV lsF, st2.ss0 = st.ss0 ++ joinLines lsV ∧ st2.ss1 = st.ss1 ++ joinLines lsF ∧
      (∀ l ∈ lsV, l ∈ doc ∧ ¬ containsShader l) ∧ (∀ l ∈ lsF, l ∈ doc ∧ ¬ containsShader l) ∧
      lsV.length + lsF.length = (doc.filter (fun l => decide (¬ containsShader l))).length := by
  induction doc generalizing st with
  | nil =>
    simp only [parseLoop, Except.ok.injEq] at h
    subst h
    exact ⟨[], [], by simp [joinLines], by simp [joinLines], by simp, by simp, by simp⟩
  | cons l rest ih =>
    simp only [parseLoop] at h
    cases h1 : parseLine st l with
    | error e => rw [h1] at h; simp at h
    | ok st1 =>
      rw [h1] at h
      simp only at h
      obtain ⟨lsV, lsF, hV, hF, hmV, hmF, hlen⟩ := ih st1 h
      by_cases hc : containsShader l
      · rw [parseLine_of_containsShader _ _ hc, Except.ok.injEq] at h1
        subst h1
        refine ⟨lsV, lsF, hV, hF, ?_, ?_, ?_⟩
        · exact fun x hx => ⟨List.mem_cons_of_mem _ (hmV x hx).1, (hmV x hx).2⟩
        · exact fun x hx => ⟨List.mem_cons_of_mem _ (hmF x hx).1, (hmF x hx).2⟩
        · simpa [List.filter_cons, hc] using hlen
      · rw [parseLine_of_not_containsShader _ _ hc] at h1
        unfold ssAppend at h1
        split_ifs at h1 with h0 h01
        · rw [Except.ok.injEq] at h1
          subst h1
          refine ⟨l :: lsV, lsF, ?_, hF, ?_, ?_, ?_⟩
          · rw [hV, joinLines_cons]; simp
          · intro x hx
            rcases List.mem_cons.mp hx with e | e
            · subst e; exact ⟨List.mem_cons_self _ _, hc⟩
            · exact ⟨List.mem_cons_of_mem _ (hmV x e).1, (hmV x e).2⟩
          · exact fun x hx => ⟨List.mem_cons_of_mem _ (hmF x hx).1, (hmF x hx).2⟩
          · simp only [List.filter_cons, hc, not_false_eq_true, decide_True, if_true,
              List.length_cons]
            omega
        · rw [Except.ok.injEq] at h1
          subst h1
          refine ⟨lsV, l :: lsF, hV, ?_, ?_, ?_, ?_⟩
          · rw [hF, joinLines_cons]; simp
          · exact fun x hx => ⟨List.mem_cons_of_mem _ (hmV x hx).1, (hmV x hx).2⟩
          · intro x hx
            rcases List.mem_cons.mp hx with e | e
            · subst e; exact ⟨List.mem_cons_self _ _, hc⟩
            · exact ⟨List.mem_cons_of_mem _ (hmF x e).1, (hmF x e).2⟩
          · simp only [List.filter_cons, hc, not_false_eq_true, decide_True, if_true,
              List.length_cons]
            omega

/-! ## Runs that start after a marker -/

theorem parseLine_ok_of_type_ne_NONE (st : ParseState) (l : List Char)
    (h : st.type ≠ ShaderType.NONE) :
    ∃ st1, parseLine st l = Except.ok st1 ∧ st1.type ≠ ShaderType.NONE := by
  by_cases hc : containsShader l
  · refine ⟨_, parseLine_of_containsShader st l hc, ?_⟩
    cases hs : selectedStage l with
    | none => simpa using h
    | some t =>
      have := selectedStage_ne_NONE l
      rw [hs] at this
      simpa using this
  · rw [parseLine_of_not_containsShader _ _ hc]
    cases ht : st.type with
    | NONE => exact absurd ht h
    | VERTEX =>
      exact ⟨{ st with ss0 := st.ss0 ++ (l ++ ['\n']) }, by simp [ssAppend, ShaderType.toInt],
        by simp [ht]⟩
    | FRAGMENT =>
      exact ⟨{ st with ss1 := st.ss1 ++ (l ++ ['\n']) }, by simp [ssAppend, ShaderType.toInt],
        by simp [ht]⟩

theorem parseLoop_ok_of_type_ne_NONE (st : ParseState) (doc : List (List Char))
    (h : st.type ≠ ShaderType.NONE) :
    ∃ st2, parseLoop st doc = Except.ok st2 := by
  induction doc generalizing st with
  | nil => exact ⟨st, rfl⟩
  | cons l rest ih =>
    obtain ⟨st1, h1, h2⟩ := parseLine_ok_of_type_ne_NONE st l h
    obtain ⟨st2, h3⟩ := ih st1 h2
    exact ⟨st2, by simp only [parseLoop, h1, h3]⟩

theorem parseLoop_content_VERTEX (st : ParseState) (ls : List (List Char))
    (ht : st.type = ShaderType.VERTEX) (h : ∀ l ∈ ls, ¬ containsShader l) :
    parseLoop st ls = Except.ok { st with ss0 := st.ss0 ++ joinLines ls } := by
  induction ls generalizing st with
  | nil => simp [parseLoop, joinLines]
  | cons l rest ih =>
    simp only [parseLoop]
    rw [parseLine_of_not_containsShader _ _ (h l (List.mem_cons_self _ _))]
    simp only [ssAppend, ht, ShaderType.toInt, if_true]
    rw [ih _ rfl (fun x hx => h x (List.mem_cons_of_mem _ hx)), joinLines_cons]
    simp

theorem parseLoop_content_FRAGMENT (st : ParseState) (ls : List (List Char))
    (ht : st.type = ShaderType.FRAGMENT) (h : ∀ l ∈ ls, ¬ containsShader l) :
    parseLoop st ls = Except.ok { st with ss1 := st.ss1 ++ joinLines ls } := by
  induction ls generalizing st with
  | nil => simp [parseLoop, joinLines]
  | cons l rest ih =>
    simp only [parseLoop]
    rw [parseLine_of_not_containsShader _ _ (h l (List.mem_cons_self _ _))]
    simp only [ssAppend, ht, ShaderType.toInt, one_ne_zero, if_false, if_true]
    rw [ih _ rfl (fun x hx => h x (List.mem_cons_of_mem _ hx)), joinLines_cons]
    simp

/-- Splitting the recombined document gives back the two texts, when these are made of
newline-terminated lines that do not contain `#shader`. -/
theorem parseLoop_recombine (lsV lsF : List (List Char))
    (hV : ∀ l ∈ lsV, ¬ containsShader l ∧ '\n' ∉ l)
    (hF : ∀ l ∈ lsF, ¬ containsShader l ∧ '\n' ∉ l) :
    ParseShaderStream (some (recombine (joinLines lsV) (joinLines lsF)))
      = Except.ok ⟨joinLines lsV, joinLines lsF⟩ := by
  have hlines : getlines (recombine (joinLines lsV) (joinLines lsF))
      = "#shader vertex".toList :: (lsV ++ "#shader fragment".toList :: lsF) := by
    have e : recombine (joinLines lsV) (joinLines lsF)
        = "#shader vertex".toList ++ '\n' :: (joinLines lsV ++
            ("#shader fragment".toList ++ '\n' :: (joinLines lsF ++ []))) := by
      simp [recombine]
    rw [e, getlines_line_append _ _ (by decide), getlines_joinLines _ _ (fun l hl => (hV l hl).2),
      getlines_line_append _ _ (by decide), getlines_joinLines _ _ (fun l hl => (hF l hl).2)]
    simp [getlines]
  have hmv : ∀ st, parseLine st "#shader vertex".toList
      = Except.ok { st with type := ShaderType.VERTEX } := by
    intro st
    rw [parseLine_of_containsShader _ _ (by decide)]
    have : selectedStage "#shader vertex".toList = some ShaderType.VERTEX := by decide
    rw [this]; rfl
  have hmf : ∀ st, parseLine st "#shader fragment".toList
      = Except.ok { st with type := ShaderType.FRAGMENT } := by
    intro st
    rw [parseLine_of_containsShader _ _ (by decide)]
    have : selectedStage "#shader fragment".toList = some ShaderType.FRAGMENT := by decide
    rw [this]; rfl
  unfold ParseShaderStream
  simp only [streamLines]
  rw [hlines]
  simp only [parseLoop, hmv]
  rw [parseLoop_append, parseLoop_content_VERTEX _ _ rfl (fun l hl => (hV l hl).1)]
  simp only [parseLoop, hmf]
  rw [parseLoop_content_FRAGMENT _ _ rfl (fun l hl => (hF l hl).1)]
  simp [ParseState.init]

/-! ## The selector after a run, and markers by order of their tokens -/

theorem parseLoop_snoc_ok (st : ParseState) (pre : List (List Char)) (l : List Char)
    (st2 : ParseState) (h : parseLoop st (pre ++ [l]) = Except.ok st2) :
    ∃ st1, parseLoop st pre = Except.ok st1 ∧ parseLine st1 l = Except.ok st2 := by
  rw [parseLoop_append] at h
  cases h1 : parseLoop st pre with
  | error e => rw [h1] at h; simp at h
  | ok st1 =>
    rw [h1] at h
    simp only [parseLoop] at h
    refine ⟨st1, rfl, ?_⟩
    cases h2 : parseLine st1 l with
    | error e => rw [h2] at h; simp at h
    | ok st3 => rw [h2] at h; simpa using h

theorem ssAppend_type (st st2 : ParseState) (i : Int) (text : List Char)
    (h : ssAppend st i text = Except.ok st2) : st2.type = st.type := by
  unfold ssAppend at h
  split_ifs at h <;> simp only [Except.ok.injEq] at h <;> subst h <;> rfl

/-- After a run without fault, `type` is the stage of the most recent stage-selecting
marker, or `NONE` when there was none. -/
theorem parseLoop_type (pre : List (List Char)) (st : ParseState)
    (h : parseLoop ParseState.init pre = Except.ok st) :
    st.type = (lastSelected pre).getD ShaderType.NONE := by
  induction pre using List.reverseRecOn generalizing st with
  | nil =>
    simp only [parseLoop, Except.ok.injEq] at h
    subst h; rfl
  | append_singleton pre l ih =>
    obtain ⟨st1, h1, h2⟩ := parseLoop_snoc_ok _ _ _ _ h
    have ih1 := ih st1 h1
    rw [lastSelected_snoc]
    by_cases hc : containsShader l
    · rw [parseLine_of_containsShader _ _ hc, Except.ok.injEq] at h2
      subst h2
      cases hs : selectedStage l <;> simp [ih1]
    · rw [parseLine_of_not_containsShader _ _ hc] at h2
      have hnone : selectedStage l = none := by simp [selectedStage, hc]
      rw [hnone, ssAppend_type _ _ _ _ h2]
      exact ih1

theorem infix_of_infix_drop (b line : List Char) (n : Nat) (h : b <:+: line.drop n) :
    b <:+: line :=
  h.trans (List.drop_suffix n line).isInfix

theorem followedBy_infix (line a b : List Char) (h : followedBy line a b) :
    a <:+: line ∧ b <:+: line := by
  obtain ⟨i, -, ha, hb⟩ := h
  exact ⟨infix_of_infix_drop _ _ _ ha.isInfix, infix_of_infix_drop _ _ _ hb⟩

/-! ## The two outcomes of CompileShader -/

theorem CompileShader_of_status_false (d : Driver) (gl : GLState) (type : Nat)
    (source : List Char) (h : d.status type source = GL_FALSE) :
    CompileShader d gl type source =
      (0, ⟨gl.created + 1,
        gl.calls ++ [GLCall.glCreateShader type (d.name gl.created),
          GLCall.glShaderSource (d.name gl.created) source,
          GLCall.glCompileShader (d.name gl.created),
          GLCall.glGetShaderiv (d.name gl.created) GL_COMPILE_STATUS GL_FALSE,
          GLCall.glGetShaderiv (d.name gl.created) GL_INFO_LOG_LENGTH
            (infoLogLength (d.infoLog type source)),
          GLCall.glGetShaderInfoLog (d.name gl.created)
            (infoLogLength (d.infoLog type source)),
          GLCall.glDeleteShader (d.name gl.created)],
        gl.cout ++ ("Failed to compile ".toList
          ++ (if type = GL_VERTEX_SHADER then "vertex".toList else "fragment".toList)
          ++ " shader".toList ++ endl
          ++ (messageText d type source (gl.created + 1) ++ endl))⟩) := by
  simp [CompileShader, glCreateShader, GLState.call, GLState.print, h]

theorem CompileShader_of_status_ne_false (d : Driver) (gl : GLState) (type : Nat)
    (source : List Char) (h : d.status type source ≠ GL_FALSE) :
    CompileShader d gl type source =
      (d.name gl.created, ⟨gl.created + 1,
        gl.calls ++ [GLCall.glCreateShader type (d.name gl.created),
          GLCall.glShaderSource (d.name gl.created) source,
          GLCall.glCompileShader (d.name gl.created),
          GLCall.glGetShaderiv (d.name gl.created) GL_COMPILE_STATUS (d.status type source)],
        gl.cout⟩) := by
  simp [CompileShader, glCreateShader, GLState.call, h]

theorem CompileShader_fst (d : Driver) (gl : GLState) (type : Nat) (source : List Char) :
    (CompileShader d gl type source).1 = stageHandle d type source (d.name gl.created) := by
  unfold stageHandle
  by_cases h : d.status type source = GL_FALSE
  · rw [CompileShader_of_status_false d gl type source h, if_pos h]
  · rw [CompileShader_of_status_ne_false d gl type source h, if_neg h]

theorem CompileShader_calls (d : Driver) (gl : GLState) (type : Nat) (source : List Char) :
    (CompileShader d gl type source).2.calls
      = gl.calls ++ stageCalls d type source (d.name gl.created) := by
  unfold stageCalls
  by_cases h : d.status type source = GL_FALSE
  · rw [CompileShader_of_status_false d gl type source h, if_pos h]
  · rw [CompileShader_of_status_ne_false d gl type source h, if_neg h]

theorem CompileShader_created (d : Driver) (gl : GLState) (type : Nat) (source : List Char) :
    (CompileShader d gl type source).2.created = gl.created + 1 := by
  by_cases h : d.status type source = GL_FALSE
  · rw [CompileShader_of_status_false d gl type source h]
  · rw [CompileShader_of_status_ne_false d gl type source h]

/-- The driver calls of one run of `CreateShader`. -/
theorem callsSince_CreateShader (d : Driver) (gl : GLState)
    (vertexShader fragmentShader : List Char) :
    callsSince gl (CreateShader d gl vertexShader fragmentShader).2
      = GLCall.glCreateProgram (d.name gl.created)
        :: (stageCalls d GL_VERTEX_SHADER vertexShader (d.name (gl.created + 1))
        ++ (stageCalls d GL_FRAGMENT_SHADER fragmentShader (d.name (gl.created + 2))
        ++ [GLCall.glAttachShader (d.name gl.created)
              (stageHandle d GL_VERTEX_SHADER vertexShader (d.name (gl.created + 1))),
            GLCall.glAttachShader (d.name gl.created)
              (stageHandle d GL_FRAGMENT_SHADER fragmentShader (d.name (gl.created + 2))),
            GLCall.glLinkProgram (d.name gl.created),
            GLCall.glValidateProgram (d.name gl.created),
            GLCall.glDeleteShader
              (stageHandle d GL_VERTEX_SHADER vertexShader (d.name (gl.created + 1))),
            GLCall.glDeleteShader
              (stageHandle d GL_FRAGMENT_SHADER fragmentShader (d.name (gl.created + 2)))])) := by
  have e : (CreateShader d gl vertexShader fragmentShader).2.calls
      = (CompileShader d (CompileShader d (glCreateProgram d gl).2 GL_VERTEX_SHADER
            vertexShader).2 GL_FRAGMENT_SHADER fragmentShader).2.calls
        ++ [GLCall.glAttachShader (glCreateProgram d gl).1
              (CompileShader d (glCreateProgram d gl).2 GL_VERTEX_SHADER vertexShader).1,
            GLCall.glAttachShader (glCreateProgram d gl).1
              (CompileShader d (CompileShader d (glCreateProgram d gl).2 GL_VERTEX_SHADER
                vertexShader).2 GL_FRAGMENT_SHADER fragmentShader).1,
            GLCall.glLinkProgram (glCreateProgram d gl).1,
            GLCall.glValidateProgram (glCreateProgram d gl).1,
            GLCall.glDeleteShader
              (CompileShader d (glCreateProgram d gl).2 GL_VERTEX_SHADER vertexShader).1,
            GLCall.glDeleteShader
              (CompileShader d (CompileShader d (glCreateProgram d gl).2 GL_VERTEX_SHADER
                vertexShader).2 GL_FRAGMENT_SHADER fragmentShader).1] := by
    simp [CreateShader, GLState.call]
  unfold callsSince
  rw [e, CompileShader_calls, CompileShader_calls, CompileShader_fst, CompileShader_fst,
    CompileShader_created]
  simp [glCreateProgram]

theorem deletedCount_append (h : Nat) (as bs : List GLCall) :
    deletedCount h (as ++ bs) = deletedCount h as + deletedCount h bs := by
  simp [deletedCount]

theorem createdCount_append (h : Nat) (as bs : List GLCall) :
    createdCount h (as ++ bs) = createdCount h as + createdCount h bs := by
  simp [createdCount]

theorem deletedCount_stageCalls (d : Driver) (type : Nat) (source : List Char) (id h : Nat) :
    deletedCount h (stageCalls d type source id)
      = if d.status type source = GL_FALSE ∧ id = h then 1 else 0 := by
  unfold stageCalls deletedCount
  by_cases hs : d.status type source = GL_FALSE <;> by_cases e : id = h <;>
    simp [hs, e, List.count_cons]

theorem createdCount_stageCalls (d : Driver) (type : Nat) (source : List Char) (id h : Nat) :
    createdCount h (stageCalls d type source id) = if id = h then 1 else 0 := by
  unfold stageCalls createdCount
  by_cases hs : d.status type source = GL_FALSE <;> by_cases e : id = h <;>
    simp [hs, e, List.filter_cons]

/-! ## Occurrences of a token in joined lines -/

/-- A text without newline that occurs in `l`, a newline, `rest` occurs in `l` or in
`rest`. -/
theorem infix_line_or_rest (pat l rest : List Char) (hp : '\n' ∉ pat)
    (h : pat <:+: l ++ '\n' :: rest) : pat <:+: l ∨ pat <:+: rest := by
  obtain ⟨s, t, hst⟩ := h
  rcases List.append_eq_append_iff.mp hst with ⟨a, ha, _⟩ | ⟨c, hc, hrest⟩
  · exact Or.inl ⟨s, a, ha.symm⟩
  · cases c with
    | nil =>
      simp only [List.append_nil] at hc
      exact Or.inl ⟨s, [], by simp [hc]⟩
    | cons x c2 =>
      simp only [List.cons_append, List.cons.injEq] at hrest
      obtain ⟨hx, hrest2⟩ := hrest
      subst hx
      rcases List.append_eq_append_iff.mp hc with ⟨a, _, hpat⟩ | ⟨c3, _, hc3⟩
      · exact absurd (by rw [hpat]; simp) hp
      · cases c3 with
        | nil =>
          simp only [List.nil_append] at hc3
          exact absurd (by rw [← hc3]; simp) hp
        | cons y c4 =>
          simp only [List.cons_append, List.cons.injEq] at hc3
          exact Or.inr ⟨c4, t, by rw [hrest2, hc3.2]⟩

theorem not_infix_joinLines (pat : List Char) (ls : List (List Char)) (hp : '\n' ∉ pat)
    (hne : pat ≠ []) (h : ∀ l ∈ ls, ¬ pat <:+: l) : ¬ pat <:+: joinLines ls := by
  induction ls with
  | nil =>
    intro hin
    have : pat = [] := by simpa [joinLines] using hin
    exact hne this
  | cons l ls ih =>
    intro hin
    rw [joinLines_cons] at hin
    rcases infix_line_or_rest pat l _ hp hin with h1 | h1
    · exact h l (List.mem_cons_self _ _) h1
    · exact ih (fun x hx => h x (List.mem_cons_of_mem _ hx)) h1

example : getlines "a\n\nb".toList = ["a".toList, [], "b".toList] := by decide
example : getlines "a\n".toList = ["a".toList] := by decide
example : find "xx#shader vertex".toList "#shader".toList = some 2 := by decide
example : ParseShaderStream (some "#shader vertex\nab\n#shader fragment\ncd".toList)
    = Except.ok ⟨"ab\n".toList, "cd\n".toList⟩ := by decide
example : ParseShaderStream (some "ab\n".toList) = Except.error (Fault.outOfBounds (-1)) := by
  decide

/-! ## Claims -/

/-- C1: for every document in which a stage-selecting marker line precedes every line that
does not contain `#shader`, `ParseShader` returns the pair whose vertex text is the
concatenation, in document order, of `line ++ "\n"` for every line not containing `#shader`
whose most recent preceding stage-selecting marker selected vertex, and whose fragment text
is the same for fragment. -/
theorem C1_ParseShader_sections (fs : String → Option (List Char)) (filepath : String)
    (content : List Char) (hopen : fs filepath = some content)
    (hwf : markerPrecedesContent (getlines content)) :
    ParseShader fs filepath = Except.ok
      ⟨sectionText ShaderType.VERTEX (getlines content),
        sectionText ShaderType.FRAGMENT (getlines content)⟩ := by
  unfold ParseShader ParseShaderStream
  rw [hopen]
  simp only [streamLines]
  rw [parseLoop_sections _ hwf]

theorem C1_ParseShader_sections_witness :
    markerPrecedesContent (getlines "#shader vertex\na\n\n#shader fragment\nb".toList) ∧
    sectionText ShaderType.VERTEX (getlines "#shader vertex\na\n\n#shader fragment\nb".toList)
      = "a\n\n".toList ∧
    sectionText ShaderType.FRAGMENT (getlines "#shader vertex\na\n\n#shader fragment\nb".toList)
      = "b\n".toList ∧
    ParseShader (fun _ => some "#shader vertex\na\n\n#shader fragment\nb".toList) "basic.shader"
      = Except.ok ⟨sectionText ShaderType.VERTEX
          (getlines "#shader vertex\na\n\n#shader fragment\nb".toList),
        sectionText ShaderType.FRAGMENT
          (getlines "#shader vertex\na\n\n#shader fragment\nb".toList)⟩ :=
  ⟨by decide, by decide, by decide,
    C1_ParseShader_sections _ "basic.shader" _ rfl (by decide)⟩

/-- C2: a document whose first line is not a marker line makes `ParseShader` index the array
`ss` at `(int)ShaderType::NONE = -1`, outside its two elements. -/
theorem C2_ParseShader_content_before_marker_faults :
    ParseShader (fun _ => some "void main() {}\n".toList) "basic.shader"
      = Except.error (Fault.outOfBounds (-1)) := by
  decide

/-- C3, as stated, fails: the document `#shader vertex`, `#shader geometry` has one marker
line and one content line, and `ParseShader` returns two empty strings for it. -/
theorem C3_counterexample :
    contentLineCount (getlines "#shader vertex\n#shader geometry\n".toList) = 1 ∧
    ParseShader (fun _ => some "#shader vertex\n#shader geometry\n".toList) "basic.shader"
      = Except.ok ⟨[], []⟩ ∧
    lineCount [] + lineCount [] ≠ 1 := by
  decide

/-- C3, amended: for every document in which a stage-selecting marker line precedes every
line that does not contain `#shader`, `ParseShader` returns two strings whose numbers of
lines add up to the number of lines of the document that do not contain `#shader`. -/
theorem C3_line_count (fs : String → Option (List Char)) (filepath : String)
    (content : List Char) (hopen : fs filepath = some content)
    (hwf : markerPrecedesContent (getlines content)) :
    ∃ V F, ParseShader fs filepath = Except.ok ⟨V, F⟩ ∧
      lineCount V + lineCount F
        = ((getlines content).filter (fun l => decide (¬ containsShader l))).length := by
  have hrun := parseLoop_sections _ hwf
  obtain ⟨lsV, lsF, hV, hF, hmV, hmF, hlen⟩ := parseLoop_inv _ _ _ hrun
  refine ⟨joinLines lsV, joinLines lsF, ?_, ?_⟩
  · unfold ParseShader ParseShaderStream
    rw [hopen]
    simp only [streamLines]
    rw [hrun]
    simp only [ParseState.init, List.nil_append] at hV hF
    simp only [hV, hF]
  · rw [lineCount_joinLines _ (fun l hl => newline_not_mem_of_mem_getlines _ _ (hmV l hl).1),
      lineCount_joinLines _ (fun l hl => newline_not_mem_of_mem_getlines _ _ (hmF l hl).1)]
    exact hlen

theorem C3_line_count_witness :
    markerPrecedesContent (getlines "#shader vertex\na\n#shader x\n#shader fragment\nb".toList) ∧
    ∃ V F, ParseShader (fun _ => some "#shader vertex\na\n#shader x\n#shader fragment\nb".toList)
        "basic.shader" = Except.ok ⟨V, F⟩ ∧
      lineCount V + lineCount F
        = ((getlines "#shader vertex\na\n#shader x\n#shader fragment\nb".toList).filter
            (fun l => decide (¬ containsShader l))).length :=
  ⟨by decide, C3_line_count _ "basic.shader" _ rfl (by decide)⟩

/-- C4: round trip of `ParseShader`. For every document whose first line is a
stage-selecting marker, `ParseShader` returns a pair `(V, F)`, and `ParseShader` on the
recombined document `"#shader vertex\n" + V + "#shader fragment\n" + F` returns `(V, F)`
again. -/
theorem C4_ParseShader_round_trip (fs : String → Option (List Char)) (filepath : String)
    (content first : List Char) (rest : List (List Char))
    (hopen : fs filepath = some content) (hdoc : getlines content = first :: rest)
    (hmark : (selectedStage first).isSome = true) :
    ∃ V F, ParseShader fs filepath = Except.ok ⟨V, F⟩ ∧
      ∀ (fs2 : String → Option (List Char)) (filepath2 : String),
        fs2 filepath2 = some (recombine V F) →
          ParseShader fs2 filepath2 = Except.ok ⟨V, F⟩ := by
  have hc : containsShader first := by
    by_contra hn
    simp [selectedStage, hn] at hmark
  obtain ⟨t, ht⟩ := Option.isSome_iff_exists.mp hmark
  have htne : t ≠ ShaderType.NONE := fun e => selectedStage_ne_NONE first (by rw [ht, e])
  obtain ⟨st2, hrest⟩ := parseLoop_ok_of_type_ne_NONE
    { ParseState.init with type := t } rest htne
  have hrun : parseLoop ParseState.init (getlines content) = Except.ok st2 := by
    rw [hdoc]
    simp only [parseLoop, parseLine_of_containsShader _ _ hc, ht, Option.getD_some]
    exact hrest
  obtain ⟨lsV, lsF, hV, hF, hmV, hmF, -⟩ := parseLoop_inv _ _ _ hrun
  simp only [ParseState.init, List.nil_append] at hV hF
  refine ⟨joinLines lsV, joinLines lsF, ?_, ?_⟩
  · unfold ParseShader ParseShaderStream
    rw [hopen]
    simp only [streamLines]
    rw [hrun]
    simp only [hV, hF]
  · intro fs2 filepath2 hopen2
    unfold ParseShader
    rw [hopen2]
    exact parseLoop_recombine lsV lsF
      (fun l hl => ⟨(hmV l hl).2, newline_not_mem_of_mem_getlines _ _ (hmV l hl).1⟩)
      (fun l hl => ⟨(hmF l hl).2, newline_not_mem_of_mem_getlines _ _ (hmF l hl).1⟩)

theorem C4_ParseShader_round_trip_witness :
    getlines "#shader fragment\nb\n#shader vertex\na".toList
      = "#shader fragment".toList :: ["b".toList, "#shader vertex".toList, "a".toList] ∧
    (selectedStage "#shader fragment".toList).isSome = true ∧
    ∃ V F, ParseShader (fun _ => some "#shader fragment\nb\n#shader vertex\na".toList)
        "basic.shader" = Except.ok ⟨V, F⟩ ∧
      ∀ (fs2 : String → Option (List Char)) (filepath2 : String),
        fs2 filepath2 = some (recombine V F) →
          ParseShader fs2 filepath2 = Except.ok ⟨V, F⟩ :=
  ⟨by decide, by decide,
    C4_ParseShader_round_trip (fun _ => some "#shader fragment\nb\n#shader vertex\na".toList)
      "basic.shader" "#shader fragment\nb\n#shader vertex\na".toList "#shader fragment".toList
      ["b".toList, "#shader vertex".toList, "a".toList] rfl (by decide) (by decide)⟩

/-- C5, as stated, fails: in the document `#shader vertex`, `#shader geometry` the second
line comes after a stage marker and has no stage keyword after `#shader`, and `ParseShader`
returns the empty vertex text, not `#shader geometry` followed by a newline. -/
theorem C5_counterexample :
    lastSelected ["#shader vertex".toList] = some ShaderType.VERTEX ∧
    ¬ followedBy "#shader geometry".toList "#shader".toList "vertex".toList ∧
    ¬ followedBy "#shader geometry".toList "#shader".toList "fragment".toList ∧
    ParseShader (fun _ => some "#shader vertex\n#shader geometry\n".toList) "basic.shader"
      = Except.ok ⟨[], []⟩ ∧
    ParseShader (fun _ => some "#shader vertex\n#shader geometry\n".toList) "basic.shader"
      ≠ Except.ok ⟨"#shader geometry\n".toList, []⟩ := by
  decide

/-- C5, amended: for every document in which a stage-selecting marker line precedes every
line that does not contain `#shader`, the loop reaches each line that comes after a
stage-selecting marker, and there: if the line does not contain `#shader`, it appends the
line verbatim, followed by a newline, to the text of the most recently selected section and
changes nothing else (blank lines included); if the line contains `#shader`, both texts stay
as they are. -/
theorem C5_line_after_marker (pre : List (List Char)) (line : List Char)
    (hwf : markerPrecedesContent pre) (hafter : (lastSelected pre).isSome = true) :
    ∃ st, parseLoop ParseState.init pre = Except.ok st ∧
      (¬ containsShader line →
        (lastSelected pre = some ShaderType.VERTEX ∧ parseLoop ParseState.init (pre ++ [line])
            = Except.ok { st with ss0 := st.ss0 ++ (line ++ ['\n']) }) ∨
        (lastSelected pre = some ShaderType.FRAGMENT ∧ parseLoop ParseState.init (pre ++ [line])
            = Except.ok { st with ss1 := st.ss1 ++ (line ++ ['\n']) })) ∧
      (containsShader line →
        ∃ st2, parseLoop ParseState.init (pre ++ [line]) = Except.ok st2 ∧
          st2.ss0 = st.ss0 ∧ st2.ss1 = st.ss1) := by
  have hrun := parseLoop_sections pre hwf
  refine ⟨_, hrun, ?_, ?_⟩
  · intro hc
    rw [parseLoop_append, hrun]
    simp only [parseLoop]
    rw [parseLine_of_not_containsShader _ _ hc]
    cases hp : lastSelected pre with
    | none => rw [hp] at hafter; simp at hafter
    | some t =>
      cases t with
      | NONE => exact absurd hp (lastSelected_ne_NONE pre)
      | VERTEX => left; simp [ssAppend, ShaderType.toInt]
      | FRAGMENT => right; simp [ssAppend, ShaderType.toInt]
  · intro hc
    rw [parseLoop_append, hrun]
    simp only [parseLoop]
    rw [parseLine_of_containsShader _ _ hc]
    exact ⟨_, rfl, rfl, rfl⟩

theorem C5_line_after_marker_witness :
    markerPrecedesContent ["#shader fragment".toList, "a".toList] ∧
    (lastSelected ["#shader fragment".toList, "a".toList]).isSome = true ∧
    ¬ containsShader [] ∧
    ∃ st, parseLoop ParseState.init ["#shader fragment".toList, "a".toList] = Except.ok st ∧
      ((lastSelected ["#shader fragment".toList, "a".toList] = some ShaderType.VERTEX ∧
        parseLoop ParseState.init (["#shader fragment".toList, "a".toList] ++ [[]])
          = Except.ok { st with ss0 := st.ss0 ++ ([] ++ ['\n']) }) ∨
      (lastSelected ["#shader fragment".toList, "a".toList] = some ShaderType.FRAGMENT ∧
        parseLoop ParseState.init (["#shader fragment".toList, "a".toList] ++ [[]])
          = Except.ok { st with ss1 := st.ss1 ++ ([] ++ ['\n']) })) :=
  ⟨by decide, by decide, by decide,
    (C5_line_after_marker ["#shader fragment".toList, "a".toList] []
      (by decide) (by decide)).imp (fun _ h => ⟨h.1, h.2.1 (by decide)⟩)⟩

/-- C6, as stated, fails: in the line `vertex #shader fragment` the token `#shader` is
followed by `fragment` and not by `vertex`, and `ParseShader` selects the vertex section:
the line after it goes to the vertex text. -/
theorem C6_counterexample :
    followedBy "vertex #shader fragment".toList "#shader".toList "fragment".toList ∧
    ¬ followedBy "vertex #shader fragment".toList "#shader".toList "vertex".toList ∧
    parseLine ParseState.init "vertex #shader fragment".toList
      = Except.ok ⟨ShaderType.VERTEX, [], []⟩ ∧
    ParseShader (fun _ => some "vertex #shader fragment\nx\n".toList) "basic.shader"
      = Except.ok ⟨"x\n".toList, []⟩ := by
  decide

/-- C6, amended: for every line that contains `#shader`, the loop sets the active section
to vertex when `vertex` occurs anywhere in the line, and otherwise to fragment when
`fragment` occurs anywhere in it, and otherwise leaves it as it is. So a line in which
`#shader` is followed by `vertex` selects vertex, and a line in which `#shader` is followed
by `fragment` selects fragment when `vertex` occurs nowhere in the line. -/
theorem C6_marker_selects (st : ParseState) (line : List Char) :
    (containsShader line →
      parseLine st line = Except.ok { st with type :=
        if "vertex".toList <:+: line then ShaderType.VERTEX
        else if "fragment".toList <:+: line then ShaderType.FRAGMENT
        else st.type }) ∧
    (followedBy line "#shader".toList "vertex".toList →
      parseLine st line = Except.ok { st with type := ShaderType.VERTEX }) ∧
    (followedBy line "#shader".toList "fragment".toList → ¬ "vertex".toList <:+: line →
      parseLine st line = Except.ok { st with type := ShaderType.FRAGMENT }) := by
  have key : containsShader line →
      parseLine st line = Except.ok { st with type :=
        if "vertex".toList <:+: line then ShaderType.VERTEX
        else if "fragment".toList <:+: line then ShaderType.FRAGMENT
        else st.type } := by
    intro hc
    rw [parseLine_of_containsShader _ _ hc]
    unfold selectedStage
    rw [if_pos hc]
    split_ifs <;> rfl
  refine ⟨key, ?_, ?_⟩
  · intro h
    obtain ⟨hs, hv⟩ := followedBy_infix _ _ _ h
    rw [key hs, if_pos hv]
  · intro h hnv
    obtain ⟨hs, hf⟩ := followedBy_infix _ _ _ h
    rw [key hs, if_neg hnv, if_pos hf]

theorem C6_marker_selects_witness :
    (followedBy "#shader fragment".toList "#shader".toList "fragment".toList ∧
      ¬ "vertex".toList <:+: "#shader fragment".toList ∧
      parseLine ⟨ShaderType.VERTEX, [], []⟩ "#shader fragment".toList
        = Except.ok ⟨ShaderType.FRAGMENT, [], []⟩) ∧
    (followedBy "// #shader vertex".toList "#shader".toList "vertex".toList ∧
      parseLine ⟨ShaderType.FRAGMENT, [], []⟩ "// #shader vertex".toList
        = Except.ok ⟨ShaderType.VERTEX, [], []⟩) :=
  ⟨⟨by decide, by decide,
      (C6_marker_selects ⟨ShaderType.VERTEX, [], []⟩ "#shader fragment".toList).2.2
        (by decide) (by decide)⟩,
    ⟨by decide,
      (C6_marker_selects ⟨ShaderType.FRAGMENT, [], []⟩ "// #shader vertex".toList).2.1
        (by decide)⟩⟩

/-- C7, as stated, fails: for a path that cannot be opened `ParseShader` returns the pair of
empty strings, the very result it returns for an empty file. -/
theorem C7_counterexample :
    ParseShader (fun _ => none) "res/shaders/BasicShaders.shader" = Except.ok ⟨[], []⟩ ∧
    ParseShader (fun _ => none) "res/shaders/BasicShaders.shader"
      = ParseShader (fun _ => some []) "res/shaders/BasicShaders.shader" := by
  decide

/-- C7, amended: when the file at the given path cannot be opened, `ParseShader` reads no
line and returns the pair of empty strings, which is also its result for an empty
document. -/
theorem C7_unopened_file_gives_empty_pair (fs : String → Option (List Char))
    (filepath : String) (hfail : fs filepath = none) :
    ParseShader fs filepath = Except.ok ⟨[], []⟩ ∧
      ∀ fs2 : String → Option (List Char), fs2 filepath = some [] →
        ParseShader fs2 filepath = ParseShader fs filepath := by
  constructor
  · unfold ParseShader
    rw [hfail]
    rfl
  · intro fs2 h2
    unfold ParseShader
    rw [hfail, h2]
    rfl

theorem C7_unopened_file_gives_empty_pair_witness :
    ParseShader (fun _ => none) "missing.shader" = Except.ok ⟨[], []⟩ ∧
      ∀ fs2 : String → Option (List Char), fs2 "missing.shader" = some [] →
        ParseShader fs2 "missing.shader" = ParseShader (fun _ => none) "missing.shader" :=
  C7_unopened_file_gives_empty_pair (fun _ => none) "missing.shader" rfl

/-- C8, as stated, fails. When the creation of the stage fails, `glCreateShader` gives 0 and
`CompileShader` returns that 0 although the compile status reported is not false. And when
the driver rejects a stage without an information log, what follows the stage kind in the
output is the text of an unwritten buffer, here `??`, not the (empty) log. -/
theorem C8_counterexample :
    (glCreateShader failingCreateDriver GLState.start GL_VERTEX_SHADER).1 = 0 ∧
    failingCreateDriver.status GL_VERTEX_SHADER "void main() {}".toList ≠ GL_FALSE ∧
    (CompileShader failingCreateDriver GLState.start GL_VERTEX_SHADER
      "void main() {}".toList).1 = 0 ∧
    silentDriver.status GL_FRAGMENT_SHADER "void main(".toList = GL_FALSE ∧
    silentDriver.infoLog GL_FRAGMENT_SHADER "void main(".toList = [] ∧
    (CompileShader silentDriver GLState.start GL_FRAGMENT_SHADER
      "void main(".toList).2.cout = "Failed to compile fragment shader\n??\n".toList ∧
    (CompileShader silentDriver GLState.start GL_FRAGMENT_SHADER
      "void main(".toList).2.cout
        ≠ "Failed to compile fragment shader\n".toList
          ++ silentDriver.infoLog GL_FRAGMENT_SHADER "void main(".toList ++ "\n".toList := by
  decide

/-- C8, amended: when `glCreateShader` gave a non-zero handle, `CompileShader` returns 0 if
and only if the driver reports compile status false for the stage; in that case it writes
the stage kind to the output, followed by the diagnostic log when the driver has an
information log for the stage, and deletes the stage handle it created; otherwise it returns
exactly the handle obtained from `glCreateShader`, does not delete it and writes nothing. -/
theorem C8_CompileShader_result (d : Driver) (gl : GLState) (type : Nat)
    (source : List Char) (hid : (glCreateShader d gl type).1 ≠ 0) :
    ((CompileShader d gl type source).1 = 0 ↔ d.status type source = GL_FALSE) ∧
    (d.status type source = GL_FALSE →
      (gl.cout ++ "Failed to compile ".toList
          ++ (if type = GL_VERTEX_SHADER then "vertex".toList else "fragment".toList)
          ++ " shader\n".toList <+: (CompileShader d gl type source).2.cout) ∧
      (d.infoLog type source ≠ [] →
        (CompileShader d gl type source).2.cout = gl.cout ++ "Failed to compile ".toList
          ++ (if type = GL_VERTEX_SHADER then "vertex".toList else "fragment".toList)
          ++ " shader\n".toList ++ d.infoLog type source ++ "\n".toList) ∧
      deletedCount (glCreateShader d gl type).1
        (callsSince gl (CompileShader d gl type source).2) = 1) ∧
    (d.status type source ≠ GL_FALSE →
      (CompileShader d gl type source).1 = (glCreateShader d gl type).1 ∧
      (CompileShader d gl type source).2.cout = gl.cout ∧
      deletedCount (glCreateShader d gl type).1
        (callsSince gl (CompileShader d gl type source).2) = 0) := by
  have hname : d.name gl.created ≠ 0 := hid
  by_cases h : d.status type source = GL_FALSE
  · rw [CompileShader_of_status_false d gl type source h]
    refine ⟨by simp [h], fun _ => ⟨?_, ?_, ?_⟩, fun hn => absurd h hn⟩
    · exact ⟨messageText d type source (gl.created + 1) ++ endl, by simp [endl]⟩
    · intro hlog
      have hmsg : messageText d type source (gl.created + 1) = d.infoLog type source := by
        unfold messageText infoLogLength
        rw [if_neg hlog, if_neg (by omega)]
      simp [endl, hmsg]
    · simp [callsSince, deletedCount, glCreateShader]
  · rw [CompileShader_of_status_ne_false d gl type source h]
    refine ⟨by simp [h, hname], fun hn => absurd hn h, fun _ => ⟨rfl, rfl, ?_⟩⟩
    simp [callsSince, deletedCount, glCreateShader]

theorem C8_CompileShader_result_witness :
    (glCreateShader sampleDriver GLState.start GL_FRAGMENT_SHADER).1 ≠ 0 ∧
    sampleDriver.status GL_FRAGMENT_SHADER [] = GL_FALSE ∧
    sampleDriver.infoLog GL_FRAGMENT_SHADER [] ≠ [] ∧
    (CompileShader sampleDriver GLState.start GL_FRAGMENT_SHADER []).1 = 0 ∧
    (CompileShader sampleDriver GLState.start GL_FRAGMENT_SHADER []).2.cout
      = "Failed to compile fragment shader\nsyntax error\n".toList ∧
    deletedCount 1
      (callsSince GLState.start
        (CompileShader sampleDriver GLState.start GL_FRAGMENT_SHADER []).2) = 1 :=
  ⟨by decide, by decide, by decide,
    (C8_CompileShader_result sampleDriver GLState.start GL_FRAGMENT_SHADER []
      (by decide)).1.mpr (by decide),
    ((C8_CompileShader_result sampleDriver GLState.start GL_FRAGMENT_SHADER []
      (by decide)).2.1 (by decide)).2.1 (by decide),
    ((C8_CompileShader_result sampleDriver GLState.start GL_FRAGMENT_SHADER []
      (by decide)).2.1 (by decide)).2.2⟩

/-- C9, as stated, fails: with a fragment stage the driver rejects, `CreateShader` returns
the handle obtained from `glCreateProgram`, which is 1 here, not the sentinel 0. -/
theorem C9_counterexample :
    sampleDriver.status GL_FRAGMENT_SHADER [] = GL_FALSE ∧
    (glCreateProgram sampleDriver GLState.start).1 = 1 ∧
    (CreateShader sampleDriver GLState.start "void main() {}".toList []).1 = 1 ∧
    (CreateShader sampleDriver GLState.start "void main() {}".toList []).1 ≠ 0 := by
  decide

/-- C9, amended: for every pair of stage sources, those for which compilation of the
fragment stage fails included, `CreateShader` returns the handle obtained from
`glCreateProgram`. -/
theorem C9_CreateShader_returns_program (d : Driver) (gl : GLState)
    (vertexShader fragmentShader : List Char) :
    (CreateShader d gl vertexShader fragmentShader).1 = (glCreateProgram d gl).1 := by
  rfl

/-- C10: for every outcome of the two stage compilations, by the time `CreateShader`
returns, every non-zero stage handle has been passed to `glDeleteShader` as many times as
`glCreateShader` gave it out during the build; so, the two stage handles being different
names, every non-zero handle created during the build has been passed to `glDeleteShader`
exactly once. -/
theorem C10_stage_handles_deleted_once (d : Driver) (gl : GLState)
    (vertexShader fragmentShader : List Char) (h : Nat) (hh : h ≠ 0) :
    deletedCount h (callsSince gl (CreateShader d gl vertexShader fragmentShader).2)
      = createdCount h (callsSince gl (CreateShader d gl vertexShader fragmentShader).2) ∧
    (d.name (gl.created + 1) ≠ d.name (gl.created + 2) →
      0 < createdCount h (callsSince gl (CreateShader d gl vertexShader fragmentShader).2) →
      deletedCount h (callsSince gl (CreateShader d gl vertexShader fragmentShader).2) = 1) := by
  have h0 : ¬ (0 = h) := fun e => hh e.symm
  rw [callsSince_CreateShader]
  have hd : ∀ xs, deletedCount h (GLCall.glCreateProgram (d.name gl.created) :: xs)
      = deletedCount h xs := by
    intro xs; simp [deletedCount, List.count_cons]
  have hc : ∀ xs, createdCount h (GLCall.glCreateProgram (d.name gl.created) :: xs)
      = createdCount h xs := by
    intro xs; simp [createdCount, List.filter_cons]
  rw [hd, hc, deletedCount_append, deletedCount_append, createdCount_append,
    createdCount_append, deletedCount_stageCalls, deletedCount_stageCalls,
    createdCount_stageCalls, createdCount_stageCalls]
  unfold stageHandle
  by_cases hv : d.status GL_VERTEX_SHADER vertexShader = GL_FALSE <;>
    by_cases hf : d.status GL_FRAGMENT_SHADER fragmentShader = GL_FALSE <;>
    by_cases e1 : d.name (gl.created + 1) = h <;>
    by_cases e2 : d.name (gl.created + 2) = h <;>
    simp [hv, hf, e1, e2, h0, deletedCount, createdCount, List.count_cons, List.filter_cons]

theorem C10_stage_handles_deleted_once_witness :
    (deletedCount 3 (callsSince GLState.start
        (CreateShader sampleDriver GLState.start "void main() {}".toList []).2) = 1 ∧
      deletedCount 2 (callsSince GLState.start
        (CreateShader sampleDriver GLState.start "void main() {}".toList []).2) = 1) ∧
    createdCount 3 (callsSince GLState.start
        (CreateShader sampleDriver GLState.start "void main() {}".toList []).2) = 1 :=
  ⟨⟨(C10_stage_handles_deleted_once sampleDriver GLState.start "void main() {}".toList [] 3
        (by decide)).2 (by decide) (by decide),
      (C10_stage_handles_deleted_once sampleDriver GLState.start "void main() {}".toList [] 2
        (by decide)).2 (by decide) (by decide)⟩,
    by decide⟩

/-- C11, as stated, fails: both stages compile and the driver reports a link failure, and
`CreateShader` writes nothing to the output; its result and its effects are those of the
build whose link succeeds. -/
theorem C11_counterexample :
    sampleDriver.status GL_VERTEX_SHADER "void main() {}".toList ≠ GL_FALSE ∧
    sampleDriver.status GL_FRAGMENT_SHADER "void main() {}".toList ≠ GL_FALSE ∧
    linkFailingDriver.linkStatus "void main() {}".toList "void main() {}".toList = GL_FALSE ∧
    linkingDriver.linkStatus "void main() {}".toList "void main() {}".toList = GL_TRUE ∧
    (CreateShader linkFailingDriver.toDriver GLState.start "void main() {}".toList
      "void main() {}".toList).2.cout = [] ∧
    CreateShader linkFailingDriver.toDriver GLState.start "void main() {}".toList
        "void main() {}".toList
      = CreateShader linkingDriver.toDriver GLState.start "void main() {}".toList
        "void main() {}".toList := by
  decide

/-- C11, amended: for every build in which both stages compile, whatever link or validation
status the driver reports, `CreateShader` writes nothing to the output stream and asks the
driver for no status of the program: its driver calls are the creation, the two stage
compilations, two attachments, the link, the validation and two deletions, and it returns
the handle obtained from `glCreateProgram`. -/
theorem C11_link_failure_not_reported (pd : ProgramDriver) (gl : GLState)
    (vertexShader fragmentShader : List Char)
    (hv : pd.status GL_VERTEX_SHADER vertexShader ≠ GL_FALSE)
    (hf : pd.status GL_FRAGMENT_SHADER fragmentShader ≠ GL_FALSE) :
    (CreateShader pd.toDriver gl vertexShader fragmentShader).2.cout = gl.cout ∧
    (CreateShader pd.toDriver gl vertexShader fragmentShader).1 = pd.name gl.created ∧
    callsSince gl (CreateShader pd.toDriver gl vertexShader fragmentShader).2
      = [GLCall.glCreateProgram (pd.name gl.created),
          GLCall.glCreateShader GL_VERTEX_SHADER (pd.name (gl.created + 1)),
          GLCall.glShaderSource (pd.name (gl.created + 1)) vertexShader,
          GLCall.glCompileShader (pd.name (gl.created + 1)),
          GLCall.glGetShaderiv (pd.name (gl.created + 1)) GL_COMPILE_STATUS
            (pd.status GL_VERTEX_SHADER vertexShader),
          GLCall.glCreateShader GL_FRAGMENT_SHADER (pd.name (gl.created + 2)),
          GLCall.glShaderSource (pd.name (gl.created + 2)) fragmentShader,
          GLCall.glCompileShader (pd.name (gl.created + 2)),
          GLCall.glGetShaderiv (pd.name (gl.created + 2)) GL_COMPILE_STATUS
            (pd.status GL_FRAGMENT_SHADER fragmentShader),
          GLCall.glAttachShader (pd.name gl.created) (pd.name (gl.created + 1)),
          GLCall.glAttachShader (pd.name gl.created) (pd.name (gl.created + 2)),
          GLCall.glLinkProgram (pd.name gl.created),
          GLCall.glValidateProgram (pd.name gl.created),
          GLCall.glDeleteShader (pd.name (gl.created + 1)),
          GLCall.glDeleteShader (pd.name (gl.created + 2))] := by
  refine ⟨?_, rfl, ?_⟩
  · simp [CreateShader, GLState.call, glCreateProgram,
      CompileShader_of_status_ne_false _ _ _ _ hv, CompileShader_of_status_ne_false _ _ _ _ hf]
  · rw [callsSince_CreateShader]
    simp [stageCalls, stageHandle, hv, hf]

theorem C11_link_failure_not_reported_witness :
    linkFailingDriver.linkStatus "void main() {}".toList "void main() {}".toList = GL_FALSE ∧
    (CreateShader linkFailingDriver.toDriver GLState.start "void main() {}".toList
      "void main() {}".toList).2.cout = GLState.start.cout ∧
    (CreateShader linkFailingDriver.toDriver GLState.start "void main() {}".toList
      "void main() {}".toList).1 = linkFailingDriver.name GLState.start.created :=
  ⟨by decide,
    (C11_link_failure_not_reported linkFailingDriver GLState.start "void main() {}".toList
      "void main() {}".toList (by decide) (by decide)).1,
    (C11_link_failure_not_reported linkFailingDriver GLState.start "void main() {}".toList
      "void main() {}".toList (by decide) (by decide)).2.1⟩

/-- C12: the code does not do what the claim says. With buffer 5 on the vertex slot and
the index buffer 7 on the index slot, `IndexBuffer::Unbind` resets the vertex slot and
leaves the index slot bound to 7; with both slots empty, `IndexBuffer::Bind` sets the vertex
slot to 7 and leaves the index slot empty; the constructor binds the index slot. -/
theorem C12_IndexBuffer_binds_vertex_slot :
    (IndexBuffer.Unbind ⟨7⟩ ⟨[7, 5], 5, 7, []⟩).arrayBuffer = 0 ∧
    (IndexBuffer.Unbind ⟨7⟩ ⟨[7, 5], 5, 7, []⟩).elementArrayBuffer = 7 ∧
    (IndexBuffer.Bind ⟨7⟩ ⟨[7, 5], 0, 0, []⟩).arrayBuffer = 7 ∧
    (IndexBuffer.Bind ⟨7⟩ ⟨[7, 5], 0, 0, []⟩).elementArrayBuffer = 0 ∧
    (IndexBuffer.construct (fun _ => 7) ⟨[5], 5, 0, []⟩ [0, 1, 2] 3).2.elementArrayBuffer = 7 ∧
    (IndexBuffer.construct (fun _ => 7) ⟨[5], 5, 0, []⟩ [0, 1, 2] 3).2.arrayBuffer = 5 := by
  decide

/-- C13: for every index array, when the driver gives a name that is not 0 and not in use,
constructing an `IndexBuffer` and immediately destroying it makes one call of
`glGenBuffers` and one call of `glDeleteBuffers`, on the name that `glGenBuffers` gave, and
the buffer names in use after the destruction are those in use before the construction. -/
theorem C13_IndexBuffer_construct_destruct (gen : List Nat → Nat) (s : BufferState)
    (data : List Nat) (numbOfElements : Nat)
    (hfresh : gen s.live ∉ s.live) (hname : gen s.live ≠ 0) :
    ((IndexBuffer.construct gen s data numbOfElements).1.destruct
        (IndexBuffer.construct gen s data numbOfElements).2).live = s.live ∧
    bufferCallsSince s ((IndexBuffer.construct gen s data numbOfElements).1.destruct
        (IndexBuffer.construct gen s data numbOfElements).2)
      = [BufferCall.glGenBuffers (gen s.live),
          BufferCall.glBindBuffer GL_ELEMENT_ARRAY_BUFFER (gen s.live),
          BufferCall.glBufferData GL_ELEMENT_ARRAY_BUFFER ((numbOfElements * 4) % 2 ^ 64) data
            GL_STATIC_DRAW,
          BufferCall.glDeleteBuffers (gen s.live)] := by
  have hfilter : s.live.filter (fun b => decide (b ≠ gen s.live)) = s.live := by
    rw [List.filter_eq_self]
    intro b hb
    simp only [decide_eq_true_eq]
    exact fun e => hfresh (e ▸ hb)
  constructor
  · simp [IndexBuffer.construct, IndexBuffer.destruct, glGenBuffers, glBindBuffer,
      glBufferData, glDeleteBuffers, GL_ARRAY_BUFFER, GL_ELEMENT_ARRAY_BUFFER, hname,
      List.filter_cons]
    simpa using hfilter
  · simp [bufferCallsSince, IndexBuffer.construct, IndexBuffer.destruct, glGenBuffers,
      glBindBuffer, glBufferData, glDeleteBuffers, GL_ARRAY_BUFFER, GL_ELEMENT_ARRAY_BUFFER,
      hname]

theorem C13_IndexBuffer_construct_destruct_witness :
    nextBufferName [5, 2] ∉ [5, 2] ∧ nextBufferName [5, 2] ≠ 0 ∧
    ((IndexBuffer.construct nextBufferName ⟨[5, 2], 5, 0, []⟩ [0, 1, 2] 3).1.destruct
        (IndexBuffer.construct nextBufferName ⟨[5, 2], 5, 0, []⟩ [0, 1, 2] 3).2).live
      = [5, 2] :=
  ⟨by decide, by decide,
    (C13_IndexBuffer_construct_destruct nextBufferName ⟨[5, 2], 5, 0, []⟩ [0, 1, 2] 3
      (by decide) (by decide)).1⟩

/-- C14, as stated, fails: in a run of `main` with one frame, twelve resources are
acquired and the releases before `glfwTerminate` are the three vertex arrays, in the order
in which they were acquired, not the twelve in reverse order; the program 1 and the texture
1 are never released. -/
theorem C14_counterexample :
    (acquisitions (mainEvents sampleHandles 1)).length = 12 ∧
    releases (beforeTerminate (mainEvents sampleHandles 1))
      = [(ResourceKind.vertexArray, 1), (ResourceKind.vertexArray, 2),
          (ResourceKind.vertexArray, 3)] ∧
    releases (beforeTerminate (mainEvents sampleHandles 1))
      ≠ (acquisitions (mainEvents sampleHandles 1)).reverse ∧
    (ResourceKind.program, 1) ∈ acquisitions (mainEvents sampleHandles 1) ∧
    (ResourceKind.program, 1) ∉ releases (mainEvents sampleHandles 1) ∧
    (ResourceKind.texture, 1) ∈ acquisitions (mainEvents sampleHandles 1) ∧
    (ResourceKind.texture, 1) ∉ releases (mainEvents sampleHandles 1) := by
  decide

/-- C14, amended: on the normal exit path of `main`, whatever the handles and the number of
frames, the three vertex arrays are released before `glfwTerminate`, in the order in which
they were acquired, and they are, vertex buffers apart, all that is released before it; no
shader program and no texture is ever released by `main`. -/
theorem C14_main_releases (h : MainHandles) (frames : Nat) :
    (releases (beforeTerminate (mainEvents h frames))).filter
        (fun r => decide (r.1 ≠ ResourceKind.buffer))
      = [(ResourceKind.vertexArray, h.VAO0), (ResourceKind.vertexArray, h.VAO1),
          (ResourceKind.vertexArray, h.VAO2)] ∧
    (acquisitions (mainEvents h frames)).filter
        (fun r => decide (r.1 = ResourceKind.vertexArray))
      = [(ResourceKind.vertexArray, h.VAO0), (ResourceKind.vertexArray, h.VAO1),
          (ResourceKind.vertexArray, h.VAO2)] ∧
    (∀ id, (ResourceKind.program, id) ∉ releases (mainEvents h frames)) ∧
    (∀ id, (ResourceKind.texture, id) ∉ releases (mainEvents h frames)) := by
  have hframes : ∀ (f : MainEvent → Option (ResourceKind × Nat)),
      f MainEvent.frame = none → List.filterMap f (List.replicate frames MainEvent.frame) = [] :=
    fun f hf => List.filterMap_replicate_of_none hf
  have hsplit : mainEvents h frames
      = ([MainEvent.acquire ResourceKind.program h.shader,
          MainEvent.acquire ResourceKind.program h.lightShader,
          MainEvent.acquire ResourceKind.vertexArray h.VAO0,
          MainEvent.acquire ResourceKind.buffer h.vbo0,
          MainEvent.acquire ResourceKind.vertexArray h.VAO1,
          MainEvent.acquire ResourceKind.buffer h.vbo1,
          MainEvent.acquire ResourceKind.vertexArray h.VAO2,
          MainEvent.acquire ResourceKind.buffer h.vbo2,
          MainEvent.acquire ResourceKind.texture h.texture1,
          MainEvent.acquire ResourceKind.texture h.texture1Specular,
          MainEvent.acquire ResourceKind.texture h.texture2,
          MainEvent.acquire ResourceKind.texture h.texture2Specular]
        ++ (List.replicate frames MainEvent.frame
        ++ [MainEvent.release ResourceKind.vertexArray h.VAO0,
          MainEvent.release ResourceKind.vertexArray h.VAO1,
          MainEvent.release ResourceKind.vertexArray h.VAO2]))
        ++ MainEvent.glfwTerminate
          :: [MainEvent.release ResourceKind.buffer h.vbo2,
            MainEvent.release ResourceKind.buffer h.vbo1,
            MainEvent.release ResourceKind.buffer h.vbo0] := by
    simp [mainEvents, VertexBuffer.construct, VertexBuffer.destruct, handleTextures]
  have hbefore : beforeTerminate (mainEvents h frames)
      = [MainEvent.acquire ResourceKind.program h.shader,
          MainEvent.acquire ResourceKind.program h.lightShader,
          MainEvent.acquire ResourceKind.vertexArray h.VAO0,
          MainEvent.acquire ResourceKind.buffer h.vbo0,
          MainEvent.acquire ResourceKind.vertexArray h.VAO1,
          MainEvent.acquire ResourceKind.buffer h.vbo1,
          MainEvent.acquire ResourceKind.vertexArray h.VAO2,
          MainEvent.acquire ResourceKind.buffer h.vbo2,
          MainEvent.acquire ResourceKind.texture h.texture1,
          MainEvent.acquire ResourceKind.texture h.texture1Specular,
          MainEvent.acquire ResourceKind.texture h.texture2,
          MainEvent.acquire ResourceKind.texture h.texture2Specular]
        ++ (List.replicate frames MainEvent.frame
        ++ [MainEvent.release ResourceKind.vertexArray h.VAO0,
          MainEvent.release ResourceKind.vertexArray h.VAO1,
          MainEvent.release ResourceKind.vertexArray h.VAO2]) := by
    rw [hsplit]
    unfold beforeTerminate
    rw [List.takeWhile_append_of_pos]
    · simp
    · intro a ha
      simp only [List.mem_append, List.mem_cons, List.mem_replicate, List.mem_singleton,
        List.not_mem_nil, or_false] at ha
      rcases ha with ha | ha | ha
      · rcases ha with e | e | e | e | e | e | e | e | e | e | e | e <;> subst e <;> simp
      · rw [ha.2]; simp
      · rcases ha with e | e | e <;> subst e <;> simp
  refine ⟨?_, ?_, ?_, ?_⟩
  · rw [hbefore]
    simp [releases, List.filterMap_append, hframes]
  · rw [hsplit]
    simp [acquisitions, List.filterMap_append, hframes, List.filter_cons]
  · intro id
    rw [hsplit]
    simp [releases, List.filterMap_append, hframes]
  · intro id
    rw [hsplit]
    simp [releases, List.filterMap_append, hframes]

/-- C15: for every document on which `ParseShader` completes, and for a path that cannot
be opened, neither returned string contains the substring `#shader`. -/
theorem C15_outputs_without_marker_token (fs : String → Option (List Char))
    (filepath : String) (V F : List Char)
    (hdone : ParseShader fs filepath = Except.ok ⟨V, F⟩) :
    ¬ containsShader V ∧ ¬ containsShader F := by
  unfold ParseShader ParseShaderStream at hdone
  cases hrun : parseLoop ParseState.init (streamLines (fs filepath)) with
  | error e => rw [hrun] at hdone; simp at hdone
  | ok st =>
    rw [hrun] at hdone
    simp only [Except.ok.injEq, ShaderProgramSource.mk.injEq] at hdone
    obtain ⟨lsV, lsF, hV, hF, hmV, hmF, -⟩ := parseLoop_inv _ _ _ hrun
    simp only [ParseState.init, List.nil_append] at hV hF
    rw [← hdone.1, ← hdone.2, hV, hF]
    exact ⟨not_infix_joinLines _ lsV (by decide) (by decide) (fun l hl => (hmV l hl).2),
      not_infix_joinLines _ lsF (by decide) (by decide) (fun l hl => (hmF l hl).2)⟩

theorem C15_outputs_without_marker_token_witness :
    ParseShader (fun _ => some "#shader vertex\na#sha\nder\n// #shader\n#shader fragment\nb".toList)
        "basic.shader" = Except.ok ⟨"a#sha\nder\n".toList, "b\n".toList⟩ ∧
    ¬ containsShader "a#sha\nder\n".toList ∧ ¬ containsShader "b\n".toList :=
  ⟨by decide,
    C15_outputs_without_marker_token
      (fun _ => some "#shader vertex\na#sha\nder\n// #shader\n#shader fragment\nb".toList)
      "basic.shader" "a#sha\nder\n".toList "b\n".toList (by decide)⟩

example : CreateShader sampleDriver GLState.start "v".toList [] =
    (1, ⟨3, [GLCall.glCreateProgram 1,
      GLCall.glCreateShader GL_VERTEX_SHADER 2, GLCall.glShaderSource 2 "v".toList,
      GLCall.glCompileShader 2, GLCall.glGetShaderiv 2 GL_COMPILE_STATUS 1,
      GLCall.glCreateShader GL_FRAGMENT_SHADER 3, GLCall.glShaderSource 3 [],
      GLCall.glCompileShader 3, GLCall.glGetShaderiv 3 GL_COMPILE_STATUS 0,
      GLCall.glGetShaderiv 3 GL_INFO_LOG_LENGTH 13, GLCall.glGetShaderInfoLog 3 13,
      GLCall.glDeleteShader 3,
      GLCall.glAttachShader 1 2, GLCall.glAttachShader 1 0, GLCall.glLinkProgram 1,
      GLCall.glValidateProgram 1, GLCall.glDeleteShader 2, GLCall.glDeleteShader 0],
      "Failed to compile fragment shader\nsyntax error\n".toList⟩) := by
  decide

end Rasterizer
